import Mathlib

/-!
# Verification of the checklist-driven audit-and-remediation engine

Shallow embedding of `src/auditor.ts` (the `auditWebsite` aggregator, the
pattern evaluators it calls, and `fixSeoIssues`).  Documents are modelled as
`List Char`; the regular-expression tests of the source are modelled by a
small backtracking matcher over token sequences (`Tok`), one token list per
source pattern.  JavaScript truthiness (empty string and `0` are falsy) and
the case-insensitive `/i` flag are modelled explicitly.
-/

namespace WebForge

/-- The apostrophe character, used in the quote character class of double
quote or apostrophe in the source patterns. -/
def squote : Char := Char.ofNat 39

/-- Case-insensitive character comparison, modelling the `/i` regex flag. -/
def ciEqChar (a b : Char) : Bool := a.toLower == b.toLower

/-- JavaScript `\s` whitespace class (ASCII part plus NBSP). -/
def isJsWs (c : Char) : Bool :=
  c == ' ' || c == '\t' || c == '\n' || c == '\x0d' || c == '\x0b' || c == '\x0c' ||
  c == ' '

/-- The quote character class (double quote or apostrophe). -/
def isQuote (c : Char) : Bool := c == '"' || c == squote

/-- JavaScript `\d` digit class. -/
def isDigitCh (c : Char) : Bool := '0' ≤ c && c ≤ '9'

/-- JavaScript word character class (for `\b` boundaries). -/
def isWordCh (c : Char) : Bool :=
  ('a' ≤ c && c ≤ 'z') || ('A' ≤ c && c ≤ 'Z') || ('0' ≤ c && c ≤ '9') || c == '_'

/-- JavaScript `.` (any character except line terminators). -/
def isDotCh (c : Char) : Bool := !(c == '\n' || c == '\x0d' || c == ' ' || c == ' ')

/-- Strip `pat` from the front of `s`, comparing case-insensitively;
returns the rest on success. -/
def ciStrip : List Char → List Char → Option (List Char)
  | [], s => some s
  | _ :: _, [] => none
  | a :: as, b :: bs => if ciEqChar a b then ciStrip as bs else none

/-- Strip `pat` from the front of `s`, comparing exactly. -/
def exactStrip : List Char → List Char → Option (List Char)
  | [], s => some s
  | _ :: _, [] => none
  | a :: as, b :: bs => if a == b then exactStrip as bs else none

/-- Model of `String.prototype.includes`: case-sensitive substring test. -/
def includesB (pat : List Char) : List Char → Bool
  | [] => (exactStrip pat []).isSome
  | s@(_ :: rest) => (exactStrip pat s).isSome || includesB pat rest

/-- Case-insensitive substring test (used for `/literal/i.test(s)`). -/
def includesCI (pat : List Char) : List Char → Bool
  | [] => (ciStrip pat []).isSome
  | s@(_ :: rest) => (ciStrip pat s).isSome || includesCI pat rest

/-- Index of the first case-insensitive occurrence of `pat` in `s`
(the search of `String.prototype.replace` with an `/i` literal pattern). -/
def findCIGo (pat : List Char) (i : Nat) : List Char → Option Nat
  | [] => if (ciStrip pat ([] : List Char)).isSome then some i else none
  | s@(_ :: rest) => if (ciStrip pat s).isSome then some i else findCIGo pat (i + 1) rest

/-- First case-insensitive match position of `pat` in `s`. -/
def findCI (pat s : List Char) : Option Nat := findCIGo pat 0 s

/-- The backquote character (written by code point: it is part of the
dollar-substitution syntax of String.prototype.replace). -/
def backquote : Char := Char.ofNat 96

/-- ECMAScript GetSubstitution for a string replacement and a pattern with
no capture groups: dollar-dollar yields a dollar, dollar-ampersand the
matched text, dollar-backquote the text preceding the match,
dollar-apostrophe the text following the match; any other character — and
any unrecognised dollar sequence, such as dollar-digit with no capture
groups — is copied literally. -/
def getSubstitution (matched before after : List Char) : List Char → List Char
  | [] => []
  | [c] => [c]
  | c :: d :: rest =>
    if c = '$' then
      if d = '$' then '$' :: getSubstitution matched before after rest
      else if d = '&' then matched ++ getSubstitution matched before after rest
      else if d = backquote then before ++ getSubstitution matched before after rest
      else if d = squote then after ++ getSubstitution matched before after rest
      else c :: getSubstitution matched before after (d :: rest)
    else c :: getSubstitution matched before after (d :: rest)

/-- Model of `content.replace(/pat/i, repl)` for a literal pattern `pat`:
replace the first case-insensitive occurrence by the replacement string
after dollar-substitution (`getSubstitution`); no occurrence means the
content is returned unchanged. -/
def replaceFirstCI (pat repl s : List Char) : List Char :=
  match findCI pat s with
  | none => s
  | some i =>
    s.take i ++
      getSubstitution ((s.drop i).take pat.length) (s.take i) (s.drop (i + pat.length)) repl ++
      s.drop (i + pat.length)

/-- Number of positions at which `pat` occurs (exactly) in `s`. -/
def occCount (pat s : List Char) : Nat :=
  (List.range s.length).countP (fun i => pat.isPrefixOf (s.drop i))

/-- Tokens of the pattern language covering every regex of the source:
case-insensitive literals, single / optional / starred / plus character
classes, and a single capturing starred class. -/
inductive Tok where
  | lit : List Char → Tok
  | one : (Char → Bool) → Tok
  | opt : (Char → Bool) → Tok
  | star : (Char → Bool) → Tok
  | plus : (Char → Bool) → Tok
  | gstar : (Char → Bool) → Tok

/-- Maximal prefix of `s` whose characters satisfy `p`, with the rest. -/
def takeWhileSplit (p : Char → Bool) : List Char → List Char × List Char
  | [] => ([], [])
  | c :: cs =>
    if p c then
      let (t, r) := takeWhileSplit p cs
      (c :: t, r)
    else ([], c :: cs)

mutual

/-- Fueled backtracking matcher: match the token sequence against a prefix of
the input, returning the capture (if the pattern has a capturing group) and
the rest of the input.  Greedy with give-back, mirroring JS regex semantics
for the patterns in the source (which are alternation-free token sequences). -/
def matchSeqF : Nat → List Tok → List Char → Option (Option (List Char) × List Char)
  | 0, _, _ => none
  | _ + 1, [], s => some (none, s)
  | n + 1, Tok.lit l :: ts, s =>
    match ciStrip l s with
    | some r => matchSeqF n ts r
    | none => none
  | n + 1, Tok.one p :: ts, s =>
    match s with
    | [] => none
    | c :: r => if p c then matchSeqF n ts r else none
  | n + 1, Tok.opt p :: ts, s =>
    match s with
    | [] => matchSeqF n ts s
    | c :: r =>
      if p c then
        match matchSeqF n ts r with
        | some x => some x
        | none => matchSeqF n ts s
      else matchSeqF n ts s
  | n + 1, Tok.star p :: ts, s =>
    let (t, r) := takeWhileSplit p s
    giveBackF n ts t.reverse r false
  | n + 1, Tok.plus p :: ts, s =>
    match s with
    | [] => none
    | c :: r =>
      if p c then
        let (t, r2) := takeWhileSplit p r
        giveBackF n ts t.reverse r2 false
      else none
  | n + 1, Tok.gstar p :: ts, s =>
    let (t, r) := takeWhileSplit p s
    giveBackF n ts t.reverse r true

/-- Give back characters from a greedy class match one at a time (longest
first) until the rest of the token sequence matches.  When `cap` is set the
consumed characters become the capture. -/
def giveBackF : Nat → List Tok → List Char → List Char → Bool → Option (Option (List Char) × List Char)
  | 0, _, _, _, _ => none
  | n + 1, ts, takenRev, rest, cap =>
    match matchSeqF n ts rest with
    | some (c, r) => some (if cap then some takenRev.reverse else c, r)
    | none =>
      match takenRev with
      | [] => none
      | ch :: tr => giveBackF n ts tr (ch :: rest) cap

end

/-- Fuel that bounds the recursion depth of the matcher. -/
def matchFuel (toks : List Tok) (s : List Char) : Nat :=
  (toks.length + 2) * (s.length + 2)

/-- Match the token sequence at the start of `s`. -/
def matchSeq (toks : List Tok) (s : List Char) : Option (Option (List Char) × List Char) :=
  matchSeqF (matchFuel toks s) toks s

/-- Leftmost match: try each start position from the left (regex search). -/
def scanMatch (toks : List Tok) : List Char → Option (Option (List Char) × List Char)
  | [] => matchSeq toks []
  | s@(_ :: rest) =>
    match matchSeq toks s with
    | some r => some r
    | none => scanMatch toks rest

/-- Model of `re.test(s)` for a token-sequence pattern. -/
def testPat (toks : List Tok) (s : List Char) : Bool := (scanMatch toks s).isSome

/-- First-match capture (`s.match(re)?.[1]`). -/
def capturePat (toks : List Tok) (s : List Char) : Option (List Char) :=
  match scanMatch toks s with
  | some (c, _) => c
  | none => none

/-- Count of the global non-overlapping matches (`s.match(/re/g)?.length`),
resuming each search after the end of the previous match. -/
def countMatchesGo (toks : List Tok) : Nat → List Char → Nat
  | 0, _ => 0
  | n + 1, s =>
    match scanMatch toks s with
    | none => 0
    | some (_, rest) => 1 + countMatchesGo toks n rest

/-- Number of global matches of the pattern in `s`. -/
def countMatches (toks : List Tok) (s : List Char) : Nat :=
  countMatchesGo toks (s.length + 1) s

/-- Model of `/\bword\b/i.test(s)`: a case-insensitive occurrence of `w` with
non-word characters (or the string edges) on both sides. -/
def hasWordCI (w : List Char) (s : List Char) : Bool :=
  (List.range (s.length + 1)).any fun i =>
    (ciStrip w (s.drop i)).isSome &&
    (i == 0 || !(isWordCh (s.getD (i - 1) ' '))) &&
    (i + w.length == s.length || !(isWordCh (s.getD (i + w.length) ' ')))

/-- Model of `[^>]` class. -/
def notGt (c : Char) : Bool := !(c == '>')

/-- Model of `[^<]` class. -/
def notLt (c : Char) : Bool := !(c == '<')

/-- The negated quote class of the source patterns. -/
def notQuote (c : Char) : Bool := !(isQuote c)

/-- Model of `[a-z]` class under the `/i` flag (case-folded). -/
def isAlphaCI (c : Char) : Bool := ('a' ≤ c && c ≤ 'z') || ('A' ≤ c && c ≤ 'Z')

/-- Model of `[\s>]` class. -/
def isWsOrGt (c : Char) : Bool := isJsWs c || c == '>'

/-- JavaScript truthiness of a nullable string: `null` and `""` are falsy. -/
def jsTruthyL : Option (List Char) → Bool
  | none => false
  | some s => !s.isEmpty

/-- Model of `x || d` on nullable strings: falsy (`null` or empty) falls back to `d`. -/
def jsOrL (o : Option (List Char)) (d : List Char) : List Char :=
  if jsTruthyL o then o.getD d else d

/-- Model of `x || d` on optional strings (`String` version, for checklist lookups). -/
def jsOrS (o : Option String) (d : String) : String :=
  match o with
  | some s => if s = "" then d else s
  | none => d

/-! ## Data model (`auditor.ts` interfaces) -/

/-- Model of `ItemResult`: the per-check outcome.  The four-valued status
union of the source is carried as its literal string. -/
structure ItemResult where
  check : String
  priority : String
  status : String
  details : String
  how_to_fix : String
  deriving Repr, DecidableEq

/-- Model of `PriorityFix` (the field called section in the source is named
`sectionLabel` here because that word is a Lean keyword). -/
structure PriorityFix where
  check_id : String
  check : String
  priority : String
  how_to_fix : String
  sectionLabel : String
  deriving Repr, DecidableEq

/-- Model of `SectionResult`. -/
structure SectionResult where
  label : String
  total : Nat
  passed : Nat
  failed : Nat
  items : List (String × ItemResult)
  deriving Repr, DecidableEq

/-- Model of `AuditResult`. -/
structure AuditResult where
  url : List Char
  timestamp : String
  total_checks : Nat
  passed : Nat
  failed : Nat
  partialN : Nat
  not_applicable : Nat
  score_percentage : Nat
  sections : List (String × SectionResult)
  priority_fixes : List PriorityFix
  deriving Repr, DecidableEq

/-- Model of `ChecklistItem` of the checklist store (display metadata only). -/
structure ChecklistItemDef where
  check : String
  priority : String
  how_to_fix : String

/-- A checklist section: label plus item metadata by check-id. -/
structure ChecklistSectionDef where
  label : String
  items : String → Option ChecklistItemDef

/-- The checklist store (`getAuditSections()`); may be empty/unavailable,
modelled by lookups returning `none`. -/
def Checklist : Type := String → Option ChecklistSectionDef

/-- Model of `sections[key]?.items || {}` composed with an item lookup. -/
def itemsOf (store : Checklist) (key id : String) : Option ChecklistItemDef :=
  (store key).bind fun s => s.items id

/-- Model of `items[id]?.check || dflt`. -/
def itemCheck (store : Checklist) (key id dflt : String) : String :=
  jsOrS ((itemsOf store key id).map fun x => x.check) dflt

/-- Model of `items[id]?.priority || dflt`. -/
def itemPriority (store : Checklist) (key id dflt : String) : String :=
  jsOrS ((itemsOf store key id).map fun x => x.priority) dflt

/-- Model of `items[id]?.how_to_fix || ""`. -/
def itemFix (store : Checklist) (key id : String) : String :=
  jsOrS ((itemsOf store key id).map fun x => x.how_to_fix) ""

/-! ## Source patterns as token sequences -/

/-- Model of `/<title>([^<]*)<\/title>/i`. -/
def titleToks : List Tok :=
  [Tok.lit "<title>".data, Tok.gstar notLt, Tok.lit "</title>".data]

/-- The four `extractMeta` patterns (attribute-order permutations over
`name=`/`property=`), each case-insensitive with a captured content value. -/
def metaToksNameFirst (attr nm : List Char) : List Tok :=
  [Tok.lit "<meta".data, Tok.one isJsWs, Tok.star notGt,
   Tok.lit attr, Tok.one isQuote, Tok.lit nm, Tok.one isQuote,
   Tok.star notGt, Tok.lit "content=".data, Tok.one isQuote,
   Tok.gstar notQuote, Tok.one isQuote]

/-- Model of `extractMeta` pattern with `content=` before the attribute. -/
def metaToksContentFirst (attr nm : List Char) : List Tok :=
  [Tok.lit "<meta".data, Tok.one isJsWs, Tok.star notGt,
   Tok.lit "content=".data, Tok.one isQuote, Tok.gstar notQuote, Tok.one isQuote,
   Tok.star notGt, Tok.lit attr, Tok.one isQuote, Tok.lit nm, Tok.one isQuote]

/-- Model of `extractMeta(html, name)`: first-match-wins across the four attribute
permutations, returning the captured content. -/
def extractMeta (html nm : List Char) : Option (List Char) :=
  match capturePat (metaToksNameFirst "name=".data nm) html with
  | some v => some v
  | none =>
    match capturePat (metaToksContentFirst "name=".data nm) html with
    | some v => some v
    | none =>
      match capturePat (metaToksNameFirst "property=".data nm) html with
      | some v => some v
      | none => capturePat (metaToksContentFirst "property=".data nm) html

/-- Model of `countHeadings(html, level)`: global count of `/<hN[\s>]/gi`. -/
def countHeadings (html : List Char) (digit : Char) : Nat :=
  countMatches [Tok.lit ('<' :: 'h' :: [digit]), Tok.one isWsOrGt] html

/-- Model of `hasSchema(html, type)`: substring tests for `"@type"` and `"Type"`. -/
def hasSchema (html ty : List Char) : Bool :=
  includesB "\"@type\"".data html && includesB ('"' :: ty ++ ['"']) html

/-- Model of `/<img\s/gi`. -/
def imgToks : List Tok := [Tok.lit "<img".data, Tok.one isJsWs]

/-- The img-with-alt counting pattern of the source. -/
def imgAltToks : List Tok :=
  [Tok.lit "<img".data, Tok.one isJsWs, Tok.star notGt,
   Tok.lit "alt=".data, Tok.one isQuote, Tok.plus notQuote, Tok.one isQuote]

/-- The img-with-dimensions counting pattern (width before height). -/
def imgDimsWHToks : List Tok :=
  [Tok.lit "<img".data, Tok.one isJsWs, Tok.star notGt,
   Tok.lit "width=".data, Tok.one isQuote, Tok.plus isDigitCh, Tok.one isQuote,
   Tok.star notGt, Tok.lit "height=".data, Tok.one isQuote, Tok.plus isDigitCh, Tok.one isQuote]

/-- The same with `height=` before `width=`. -/
def imgDimsHWToks : List Tok :=
  [Tok.lit "<img".data, Tok.one isJsWs, Tok.star notGt,
   Tok.lit "height=".data, Tok.one isQuote, Tok.plus isDigitCh, Tok.one isQuote,
   Tok.star notGt, Tok.lit "width=".data, Tok.one isQuote, Tok.plus isDigitCh, Tok.one isQuote]

/-- Model of `imgTotal`: the global `<img\s` match count. -/
def imgTotal (html : List Char) : Nat := countMatches imgToks html

/-- Model of `imgWithAlt` count. -/
def imgWithAlt (html : List Char) : Nat := countMatches imgAltToks html

/-- Model of `imgWithDims`: sum of the two attribute-order counts. -/
def imgWithDims (html : List Char) : Nat :=
  countMatches imgDimsWHToks html + countMatches imgDimsHWToks html

/-- The rel-attribute probe pattern of the source. -/
def relToks (x : List Char) : List Tok :=
  [Tok.lit "rel=".data, Tok.one isQuote, Tok.lit x, Tok.one isQuote]

/-- The extracted title (`html.match(/<title>([^<]*)<\/title>/i)?.[1]`). -/
def extractTitle (html : List Char) : Option (List Char) := capturePat titleToks html

/-! ## Pattern evaluators, one per concern family -/

/-- Model of `auditTechnicalSeo`. -/
def auditTechnicalSeo (store : Checklist) (html : List Char)
    (_headers : List (List Char × List Char)) (url : List Char)
    (robotsTxt sitemapXml : Option (List Char)) : List (String × ItemResult) :=
  let key := "1_technical_seo"
  let isHttps := "https://".data.isPrefixOf url
  let hasCanonical := testPat (relToks "canonical".data) html
  let metaRobots := extractMeta html "robots".data
  let hasViewport := testPat [Tok.lit "name=".data, Tok.one isQuote,
      Tok.lit "viewport".data, Tok.one isQuote] html
  let hasCharset := testPat [Tok.lit "charset=".data, Tok.opt isQuote,
      Tok.lit "UTF-8".data, Tok.opt isQuote] html
  let hasLang := testPat [Tok.lit "<html".data, Tok.star notGt,
      Tok.lit "lang=".data, Tok.one isQuote, Tok.one isAlphaCI] html
  [("1_01_https",
    { check := itemCheck store key "1_01_https" "HTTPS", priority := "critical",
      status := if isHttps then "done" else "missing",
      details := if isHttps then "Site uses HTTPS" else "Site does not use HTTPS",
      how_to_fix := itemFix store key "1_01_https" }),
   ("1_03_robots_txt",
    { check := itemCheck store key "1_03_robots_txt" "robots.txt", priority := "critical",
      status := if jsTruthyL robotsTxt then "done" else "missing",
      details := if jsTruthyL robotsTxt then "robots.txt found" else "robots.txt not found",
      how_to_fix := itemFix store key "1_03_robots_txt" }),
   ("1_04_sitemap_xml",
    { check := itemCheck store key "1_04_sitemap_xml" "sitemap.xml", priority := "critical",
      status := if jsTruthyL sitemapXml then "done" else "missing",
      details := if jsTruthyL sitemapXml then "sitemap.xml found" else "sitemap.xml not found",
      how_to_fix := itemFix store key "1_04_sitemap_xml" }),
   ("1_06_canonical_tags",
    { check := itemCheck store key "1_06_canonical_tags" "Canonical tag", priority := "critical",
      status := if hasCanonical then "done" else "missing",
      details := if hasCanonical then "Canonical tag found" else "No canonical tag",
      how_to_fix := itemFix store key "1_06_canonical_tags" }),
   ("1_07_meta_robots",
    { check := itemCheck store key "1_07_meta_robots" "Meta robots", priority := "high",
      status := if jsTruthyL metaRobots then "done" else "missing",
      details := if jsTruthyL metaRobots then
          "meta robots: " ++ String.mk (metaRobots.getD []) else "No meta robots tag",
      how_to_fix := itemFix store key "1_07_meta_robots" }),
   ("1_13_viewport_meta",
    { check := itemCheck store key "1_13_viewport_meta" "Viewport meta", priority := "critical",
      status := if hasViewport then "done" else "missing",
      details := if hasViewport then "Viewport meta tag found" else "No viewport meta tag",
      how_to_fix := itemFix store key "1_13_viewport_meta" }),
   ("1_14_charset",
    { check := itemCheck store key "1_14_charset" "Charset UTF-8", priority := "high",
      status := if hasCharset then "done" else "missing",
      details := if hasCharset then "UTF-8 charset found" else "No UTF-8 charset",
      how_to_fix := itemFix store key "1_14_charset" }),
   ("1_15_lang_attribute",
    { check := itemCheck store key "1_15_lang_attribute" "Lang attribute", priority := "medium",
      status := if hasLang then "done" else "missing",
      details := if hasLang then "Lang attribute found" else "No lang attribute on <html>",
      how_to_fix := itemFix store key "1_15_lang_attribute" })]

/-- Model of `auditOnPageSeo`. -/
def auditOnPageSeo (store : Checklist) (html : List Char) : List (String × ItemResult) :=
  let key := "2_on_page_seo"
  let title := extractTitle html
  let titleLen := if jsTruthyL title then (title.getD []).length else 0
  let desc := extractMeta html "description".data
  let descLen := if jsTruthyL desc then (desc.getD []).length else 0
  let h1Count := countHeadings html '1'
  let h2Count := countHeadings html '2'
  let h3Count := countHeadings html '3'
  let imgT := imgTotal html
  let imgA := imgWithAlt html
  let imgD := imgWithDims html
  let imgLazy := countMatches [Tok.lit "loading=".data, Tok.one isQuote,
      Tok.lit "lazy".data, Tok.one isQuote] html
  let hasFavicon := testPat (relToks "icon".data) html ||
      testPat (relToks "shortcut icon".data) html || includesCI "favicon".data html
  [("2_01_title_tag",
    { check := itemCheck store key "2_01_title_tag" "Title tag", priority := "critical",
      status := if jsTruthyL title then
          (if 30 ≤ titleLen ∧ titleLen ≤ 70 then "done" else "partial") else "missing",
      details := if jsTruthyL title then
          "Title (" ++ toString titleLen ++ " chars): \"" ++ String.mk (title.getD []) ++ "\""
        else "No title tag found",
      how_to_fix := itemFix store key "2_01_title_tag" }),
   ("2_02_meta_description",
    { check := itemCheck store key "2_02_meta_description" "Meta description",
      priority := "critical",
      status := if jsTruthyL desc then
          (if 100 ≤ descLen ∧ descLen ≤ 170 then "done" else "partial") else "missing",
      details := if jsTruthyL desc then
          "Meta description (" ++ toString descLen ++ " chars)" else "No meta description",
      how_to_fix := itemFix store key "2_02_meta_description" }),
   ("2_03_h1_tag",
    { check := itemCheck store key "2_03_h1_tag" "H1 tag", priority := "critical",
      status := if h1Count = 1 then "done" else if h1Count > 1 then "partial" else "missing",
      details := "Found " ++ toString h1Count ++ " H1 tag(s)",
      how_to_fix := itemFix store key "2_03_h1_tag" }),
   ("2_04_heading_hierarchy",
    { check := itemCheck store key "2_04_heading_hierarchy" "Heading hierarchy",
      priority := "high",
      status := if h1Count ≥ 1 ∧ h2Count ≥ 1 then "done" else "partial",
      details := "H1:" ++ toString h1Count ++ " H2:" ++ toString h2Count ++
        " H3:" ++ toString h3Count,
      how_to_fix := itemFix store key "2_04_heading_hierarchy" }),
   ("2_07_image_alt_tags",
    { check := itemCheck store key "2_07_image_alt_tags" "Image alt tags",
      priority := "critical",
      status := if imgT = 0 then "not_applicable"
        else if imgA = imgT then "done"
        else if imgA > 0 then "partial" else "missing",
      details := toString imgA ++ "/" ++ toString imgT ++ " images have alt text",
      how_to_fix := itemFix store key "2_07_image_alt_tags" }),
   ("2_08_image_dimensions",
    { check := itemCheck store key "2_08_image_dimensions" "Image dimensions",
      priority := "high",
      status := if imgT = 0 then "not_applicable"
        else if imgD ≥ imgT then "done"
        else if imgD > 0 then "partial" else "missing",
      details := toString imgD ++ "/" ++ toString imgT ++ " images have dimensions",
      how_to_fix := itemFix store key "2_08_image_dimensions" }),
   ("2_11_image_lazy_loading",
    { check := itemCheck store key "2_11_image_lazy_loading" "Lazy loading",
      priority := "high",
      status := if imgT ≤ 1 then "not_applicable"
        else if imgLazy > 0 then "done" else "missing",
      details := toString imgLazy ++ " images with lazy loading",
      how_to_fix := itemFix store key "2_11_image_lazy_loading" }),
   ("2_20_favicon",
    { check := itemCheck store key "2_20_favicon" "Favicon", priority := "medium",
      status := if hasFavicon then "done" else "missing",
      details := if hasFavicon then "Favicon found" else "No favicon detected",
      how_to_fix := itemFix store key "2_20_favicon" })]

/-- The `auditSchema` check table. -/
def schemaChecks : List (String × String × String) :=
  [("3_01_organization_schema", "Organization", "Organization schema"),
   ("3_02_local_business_schema", "LocalBusiness", "LocalBusiness schema"),
   ("3_03_breadcrumb_schema", "BreadcrumbList", "BreadcrumbList schema"),
   ("3_04_faq_schema", "FAQPage", "FAQPage schema"),
   ("3_05_article_schema", "Article", "Article schema"),
   ("3_10_speakable_schema", "SpeakableSpecification", "Speakable schema")]

/-- Model of `auditSchema`. -/
def auditSchema (store : Checklist) (html : List Char) : List (String × ItemResult) :=
  schemaChecks.map fun entry =>
    let (id, schemaType, label) := entry
    let found := hasSchema html schemaType.data
    (id,
     { check := itemCheck store "3_structured_data_schema" id label,
       priority := itemPriority store "3_structured_data_schema" id "high",
       status := if found then "done" else "missing",
       details := if found then schemaType ++ " schema found" else "No " ++ schemaType ++ " schema",
       how_to_fix := itemFix store "3_structured_data_schema" id })

/-- The `auditOgTags` check table. -/
def ogChecks : List (String × String × String) :=
  [("4_01_og_type", "og:type", "og:type"),
   ("4_02_og_title", "og:title", "og:title"),
   ("4_03_og_description", "og:description", "og:description"),
   ("4_04_og_image", "og:image", "og:image"),
   ("4_05_og_url", "og:url", "og:url"),
   ("4_08_twitter_card", "twitter:card", "Twitter card")]

/-- Model of `auditOgTags`. -/
def auditOgTags (store : Checklist) (html : List Char) : List (String × ItemResult) :=
  ogChecks.map fun entry =>
    let (id, metaName, label) := entry
    let value := extractMeta html metaName.data
    (id,
     { check := itemCheck store "4_open_graph_social" id label,
       priority := itemPriority store "4_open_graph_social" id "high",
       status := if jsTruthyL value then "done" else "missing",
       details := if jsTruthyL value then
           label ++ ": " ++ String.mk ((value.getD []).take 80) else "No " ++ label ++ " tag",
       how_to_fix := itemFix store "4_open_graph_social" id })

/-- The `auditSecurity` header table. -/
def securityChecks : List (String × String × String) :=
  [("8_01_hsts", "strict-transport-security", "HSTS"),
   ("8_02_x_content_type", "x-content-type-options", "X-Content-Type-Options"),
   ("8_03_x_frame_options", "x-frame-options", "X-Frame-Options"),
   ("8_04_xss_protection", "x-xss-protection", "X-XSS-Protection"),
   ("8_05_referrer_policy", "referrer-policy", "Referrer-Policy"),
   ("8_07_csp", "content-security-policy", "CSP")]

/-- Model of `auditSecurity`. -/
def auditSecurity (store : Checklist)
    (headers : List (List Char × List Char)) : List (String × ItemResult) :=
  securityChecks.map fun entry =>
    let (id, header, label) := entry
    let value := headers.lookup header.data
    (id,
     { check := itemCheck store "8_security" id label,
       priority := itemPriority store "8_security" id "high",
       status := if jsTruthyL value then "done" else "missing",
       details := if jsTruthyL value then
           label ++ ": " ++ String.mk ((value.getD []).take 80) else "No " ++ label ++ " header",
       how_to_fix := itemFix store "8_security" id })

/-- Model of `auditPerformance`. -/
def auditPerformance (store : Checklist) (html : List Char)
    (headers : List (List Char × List Char)) : List (String × ItemResult) :=
  let key := "7_performance_core_web_vitals"
  let gzipHeader := jsOrL (headers.lookup "content-encoding".data) []
  let gzipOk := includesB "gzip".data gzipHeader || includesB "br".data gzipHeader
  let hasPreload := testPat (relToks "preload".data) html
  let hasPreconnect := testPat (relToks "preconnect".data) html
  let hasDefer := hasWordCI "defer".data html || hasWordCI "async".data html
  let hasFontSwap := includesCI "display=swap".data html ||
      testPat [Tok.lit "font-display:".data, Tok.star isJsWs, Tok.lit "swap".data] html
  [("7_01_gzip_compression",
    { check := itemCheck store key "7_01_gzip_compression" "GZIP", priority := "critical",
      status := if gzipOk then "done" else "missing",
      details := if !gzipHeader.isEmpty then
          "Encoding: " ++ String.mk gzipHeader else "No compression detected",
      how_to_fix := itemFix store key "7_01_gzip_compression" }),
   ("7_07_preload_lcp",
    { check := itemCheck store key "7_07_preload_lcp" "Preload LCP", priority := "high",
      status := if hasPreload then "done" else "missing",
      details := if hasPreload then "Preload hints found" else "No preload hints",
      how_to_fix := itemFix store key "7_07_preload_lcp" }),
   ("7_08_preconnect",
    { check := itemCheck store key "7_08_preconnect" "Preconnect", priority := "medium",
      status := if hasPreconnect then "done" else "missing",
      details := if hasPreconnect then "Preconnect hints found" else "No preconnect hints",
      how_to_fix := itemFix store key "7_08_preconnect" }),
   ("7_09_defer_js",
    { check := itemCheck store key "7_09_defer_js" "Defer JS", priority := "high",
      status := if hasDefer then "done" else "missing",
      details := if hasDefer then "Deferred/async scripts found" else "No deferred scripts",
      how_to_fix := itemFix store key "7_09_defer_js" }),
   ("7_11_font_optimization",
    { check := itemCheck store key "7_11_font_optimization" "Font swap", priority := "medium",
      status := if hasFontSwap then "done" else "missing",
      details := if hasFontSwap then "font-display:swap found" else "No font-display:swap",
      how_to_fix := itemFix store key "7_11_font_optimization" })]

/-- Model of `auditUxCro`. -/
def auditUxCro (store : Checklist) (html : List Char) : List (String × ItemResult) :=
  let key := "11_ux_cro"
  let hasCta := testPat [Tok.lit "class=".data, Tok.one isQuote, Tok.star notQuote,
      Tok.lit "btn".data, Tok.star notQuote, Tok.one isQuote] html
  let hasPhone := testPat [Tok.lit "href=".data, Tok.one isQuote, Tok.lit "tel:".data] html
  let hasWhatsapp := includesCI "wa.me".data html || includesCI "whatsapp".data html
  let hasForm := testPat [Tok.lit "<form".data, Tok.one isJsWs] html
  let hasCookieBanner := includesCI "cookie".data html &&
      (includesCI "accept".data html || includesCI "consent".data html)
  [("11_01_cta_visibility",
    { check := itemCheck store key "11_01_cta_visibility" "CTA visibility",
      priority := "critical",
      status := if hasCta then "done" else "missing",
      details := if hasCta then "CTA buttons found" else "No CTA buttons detected",
      how_to_fix := itemFix store key "11_01_cta_visibility" }),
   ("11_04_phone_clickable",
    { check := itemCheck store key "11_04_phone_clickable" "Clickable phone",
      priority := "high",
      status := if hasPhone then "done" else "missing",
      details := if hasPhone then "Clickable phone link found" else "No tel: link",
      how_to_fix := itemFix store key "11_04_phone_clickable" }),
   ("11_05_whatsapp_button",
    { check := itemCheck store key "11_05_whatsapp_button" "WhatsApp button",
      priority := "medium",
      status := if hasWhatsapp then "done" else "missing",
      details := if hasWhatsapp then "WhatsApp integration found" else "No WhatsApp button",
      how_to_fix := itemFix store key "11_05_whatsapp_button" }),
   ("11_03_contact_form",
    { check := itemCheck store key "11_03_contact_form" "Contact form", priority := "high",
      status := if hasForm then "done" else "missing",
      details := if hasForm then "Contact form found" else "No contact form",
      how_to_fix := itemFix store key "11_03_contact_form" }),
   ("11_09_cookie_consent",
    { check := itemCheck store key "11_09_cookie_consent" "Cookie consent",
      priority := "medium",
      status := if hasCookieBanner then "done" else "missing",
      details := if hasCookieBanner then "Cookie consent found" else "No cookie consent banner",
      how_to_fix := itemFix store key "11_09_cookie_consent" })]

/-- Model of `auditAccessibility`. -/
def auditAccessibility (store : Checklist) (html : List Char) : List (String × ItemResult) :=
  let key := "15_accessibility"
  let hasAria := includesCI "aria-label".data html
  let hasSemanticHtml :=
    ["header", "nav", "main", "section", "article", "footer"].any fun w =>
      testPat [Tok.lit ('<' :: w.data), Tok.one isWsOrGt] html
  let hasFormLabels := testPat [Tok.lit "<label".data, Tok.one isJsWs] html
  [("15_01_aria_labels",
    { check := itemCheck store key "15_01_aria_labels" "ARIA labels", priority := "high",
      status := if hasAria then "done" else "missing",
      details := if hasAria then "ARIA labels found" else "No ARIA labels detected",
      how_to_fix := itemFix store key "15_01_aria_labels" }),
   ("15_06_semantic_html",
    { check := itemCheck store key "15_06_semantic_html" "Semantic HTML", priority := "medium",
      status := if hasSemanticHtml then "done" else "missing",
      details := if hasSemanticHtml then "Semantic HTML5 elements found"
        else "No semantic HTML5 elements",
      how_to_fix := itemFix store key "15_06_semantic_html" }),
   ("15_04_form_labels",
    { check := itemCheck store key "15_04_form_labels" "Form labels", priority := "high",
      status := if hasFormLabels then "done"
        else (if includesCI "<form".data html then "missing" else "not_applicable"),
      details := if hasFormLabels then "Form labels found" else "Forms without labels",
      how_to_fix := itemFix store key "15_04_form_labels" })]

/-- Model of `auditLegal`. -/
def auditLegal (store : Checklist) (html : List Char) : List (String × ItemResult) :=
  let key := "16_legal_compliance"
  let hasPrivacyLink := testPat [Tok.lit "privacy".data, Tok.opt isDotCh,
      Tok.lit "policy".data] html
  let hasTermsLink :=
    testPat [Tok.lit "terms".data, Tok.opt isDotCh, Tok.lit "of".data,
      Tok.opt isDotCh, Tok.lit "service".data] html ||
    testPat [Tok.lit "terms".data, Tok.opt isDotCh, Tok.lit "&".data,
      Tok.opt isDotCh, Tok.lit "service".data] html ||
    testPat [Tok.lit "terms".data, Tok.opt isDotCh, Tok.lit "conditions".data] html
  let hasCopyright := includesCI "©".data html || includesCI "&copy;".data html ||
      includesCI "copyright".data html
  [("16_01_privacy_policy",
    { check := itemCheck store key "16_01_privacy_policy" "Privacy Policy",
      priority := "critical",
      status := if hasPrivacyLink then "done" else "missing",
      details := if hasPrivacyLink then "Privacy policy link found" else "No privacy policy link",
      how_to_fix := itemFix store key "16_01_privacy_policy" }),
   ("16_02_terms_of_service",
    { check := itemCheck store key "16_02_terms_of_service" "Terms of Service",
      priority := "high",
      status := if hasTermsLink then "done" else "missing",
      details := if hasTermsLink then "Terms link found" else "No terms link",
      how_to_fix := itemFix store key "16_02_terms_of_service" }),
   ("16_04_copyright_notice",
    { check := itemCheck store key "16_04_copyright_notice" "Copyright", priority := "medium",
      status := if hasCopyright then "done" else "missing",
      details := if hasCopyright then "Copyright notice found" else "No copyright notice",
      how_to_fix := itemFix store key "16_04_copyright_notice" })]

/-! ## Aggregator / scorer (`auditWebsite`, lines 329-398) -/

/-- The `allChecks` record: one entry per concern family, in source order. -/
def mkAllChecks (store : Checklist) (html : List Char)
    (headers : List (List Char × List Char)) (url : List Char)
    (robotsTxt sitemapXml : Option (List Char)) : List (String × List (String × ItemResult)) :=
  [("1_technical_seo", auditTechnicalSeo store html headers url robotsTxt sitemapXml),
   ("2_on_page_seo", auditOnPageSeo store html),
   ("3_structured_data_schema", auditSchema store html),
   ("4_open_graph_social", auditOgTags store html),
   ("7_performance_core_web_vitals", auditPerformance store html headers),
   ("8_security", auditSecurity store headers),
   ("11_ux_cro", auditUxCro store html),
   ("15_accessibility", auditAccessibility store html),
   ("16_legal_compliance", auditLegal store html)]

/-- Model of `result.status !== "done" && result.status !== "not_applicable"`:
the statuses that enqueue a `PriorityFix`. -/
def badStatus (r : ItemResult) : Bool :=
  !(r.status == "done") && !(r.status == "not_applicable")

/-- The `PriorityFix` built from an item and its owning section label. -/
def mkFix (sectionLabel : String) (checkId : String) (r : ItemResult) : PriorityFix :=
  { check_id := checkId, check := r.check, priority := r.priority,
    how_to_fix := r.how_to_fix, sectionLabel := sectionLabel }

/-- Model of `auditSections[sectionKey]?.label || sectionKey`. -/
def sectionLabelOf (store : Checklist) (key : String) : String :=
  jsOrS ((store key).map fun s => s.label) key

/-- Accumulator of the aggregation loop: the five global counters, the
priority-fix queue (in discovery order) and the section results. -/
structure Agg where
  totalChecks : Nat
  passed : Nat
  failed : Nat
  partialN : Nat
  na : Nat
  fixes : List PriorityFix
  sections : List (String × SectionResult)

/-- Initial accumulator. -/
def Agg.init : Agg := ⟨0, 0, 0, 0, 0, [], []⟩

/-- One iteration of the inner loop (one checklist item): bump the matching
global counter and, for a non-`done`, non-`not_applicable` status, append a
`PriorityFix`.  The two extra components track `sectionPassed`/`sectionFailed`. -/
def stepItem (sectionLabel : String) (acc : Agg × Nat × Nat)
    (entry : String × ItemResult) : Agg × Nat × Nat :=
  let (g, sp, sf) := acc
  let (checkId, r) := entry
  let g := { g with totalChecks := g.totalChecks + 1 }
  let (g, sp, sf) :=
    if r.status = "done" then ({ g with passed := g.passed + 1 }, sp + 1, sf)
    else if r.status = "partial" then ({ g with partialN := g.partialN + 1 }, sp, sf + 1)
    else if r.status = "not_applicable" then ({ g with na := g.na + 1 }, sp, sf)
    else ({ g with failed := g.failed + 1 }, sp, sf + 1)
  let g :=
    if badStatus r then { g with fixes := g.fixes ++ [mkFix sectionLabel checkId r] }
    else g
  (g, sp, sf)

/-- One iteration of the outer loop (one concern family). -/
def processSection (store : Checklist) (g : Agg)
    (sec : String × List (String × ItemResult)) : Agg :=
  let sectionLabel := sectionLabelOf store sec.1
  let (g2, sp, sf) := sec.2.foldl (stepItem sectionLabel) (g, 0, 0)
  { g2 with sections := g2.sections ++
      [(sec.1, { label := sectionLabel, total := sec.2.length, passed := sp,
                 failed := sf, items := sec.2 })] }

/-- Model of `const priorityOrder = { critical: 0, high: 1, medium: 2, low: 3 }` as a
lookup that is `none` for unknown keys. -/
def priorityOrder (p : String) : Option Nat :=
  if p = "critical" then some 0
  else if p = "high" then some 1
  else if p = "medium" then some 2
  else if p = "low" then some 3
  else none

/-- JavaScript `x || d` on numbers: `undefined` *and zero* are falsy. -/
def jsOrNum (o : Option Nat) (d : Nat) : Nat :=
  match o with
  | some n => if n = 0 then d else n
  | none => d

/-- The effective sort key of `(priorityOrder[a.priority] || 3)`. -/
def fixKey (f : PriorityFix) : Nat := jsOrNum (priorityOrder f.priority) 3

/-- The `priorityFixes.sort((a, b) => (priorityOrder[a.priority] || 3) -
(priorityOrder[b.priority] || 3))` call: a stable sort on `fixKey`
(JavaScript `Array.prototype.sort` is stable). -/
def sortFixes (l : List PriorityFix) : List PriorityFix :=
  l.mergeSort fun a b => Nat.ble (fixKey a) (fixKey b)

/-- Model of `Math.round((passed / applicable) * 100)` computed exactly over the
integers: `round(q) = floor(q + 1/2)` and
`(100 * passed) / applicable + 1 / 2 = (200 * passed + applicable) / (2 * applicable)`.
`mathRound100_eq_round` proves this equal to the rational `round` formula. -/
def mathRound100 (passed applicable : Nat) : Nat :=
  (200 * passed + applicable) / (2 * applicable)

/-- The aggregation loop over all concern families. -/
def auditAgg (store : Checklist) (html : List Char)
    (headers : List (List Char × List Char)) (robotsTxt sitemapXml : Option (List Char))
    (url : List Char) : Agg :=
  (mkAllChecks store html headers url robotsTxt sitemapXml).foldl
    (processSection store) Agg.init

/-- The pure core of `auditWebsite`: everything after the fetches, as a
function of the fetched artifacts. -/
def auditWebsitePure (store : Checklist) (html : List Char)
    (headers : List (List Char × List Char)) (robotsTxt sitemapXml : Option (List Char))
    (url : List Char) (timestamp : String) : AuditResult :=
  let g := auditAgg store html headers robotsTxt sitemapXml url
  let priorityFixes := sortFixes g.fixes
  let applicable := g.totalChecks - g.na
  let scorePercentage : Nat :=
    if applicable > 0 then mathRound100 g.passed applicable else 0
  { url := url, timestamp := timestamp, total_checks := g.totalChecks,
    passed := g.passed, failed := g.failed, partialN := g.partialN,
    not_applicable := g.na, score_percentage := scorePercentage,
    sections := g.sections, priority_fixes := priorityFixes }

/-! ## Remediation engine (`fixSeoIssues`) -/

/-- Model of `FixIssue`. -/
structure FixIssue where
  check_id : List Char
  fix_instruction : List Char

/-- The optional `domain` / `businessName` context of `fixSeoIssues`. -/
structure FixEnv where
  domain : Option (List Char)
  businessName : Option (List Char)

/-- Model of `RemediationOutcome` (`{original_size, fixed_size, changes}`). -/
structure RemediationOutcome where
  original_size : Nat
  fixed_size : Nat
  changes : List String
  deriving Repr, DecidableEq

/-- JavaScript `String.prototype.split` on a single-character separator:
always returns at least one (possibly empty) field. -/
def splitOnCh (sep : Char) : List Char → List (List Char)
  | [] => [[]]
  | c :: cs =>
    let r := splitOnCh sep cs
    if c == sep then [] :: r
    else
      match r with
      | [] => [[c]]
      | h :: t => (c :: h) :: t

/-- JavaScript `String.prototype.trim`. -/
def trimWs (s : List Char) : List Char :=
  ((s.dropWhile isJsWs).reverse.dropWhile isJsWs).reverse

/-- The title text of the `2_01` route:
`fix_instruction || `${businessName || "Website"} | ${domain || ""}``. -/
def titleTextOf (env : FixEnv) (issue : FixIssue) : List Char :=
  jsOrL (some issue.fix_instruction)
    (jsOrL env.businessName "Website".data ++ " | ".data ++ jsOrL env.domain [])

/-- The description text of the `2_02` route. -/
def descTextOf (env : FixEnv) (issue : FixIssue) : List Char :=
  jsOrL (some issue.fix_instruction)
    (jsOrL env.businessName "Website".data ++ " - Professional services. Contact us today.".data)

/-- The canonical href of the `1_06` route:
`domain ? `https://${domain}/` : fix_instruction`. -/
def canonicalOf (env : FixEnv) (issue : FixIssue) : List Char :=
  if jsTruthyL env.domain then "https://".data ++ env.domain.getD [] ++ "/".data
  else issue.fix_instruction

/-- The single-quoted rel-canonical probe of the canonical route. -/
def relCanonicalSq : List Char := "rel=".data ++ squote :: "canonical".data ++ [squote]

/-- The `/<html[^>]*lang=/i` probe of the `1_15` route. -/
def htmlLangToks : List Tok :=
  [Tok.lit "<html".data, Tok.star notGt, Tok.lit "lang=".data]

/-- Route `2_01` (title): guarded anchored insertion after `<head>`. -/
def routeTitle (env : FixEnv) (issue : FixIssue) (c : List Char) : List Char × List String :=
  if "2_01".data.isPrefixOf issue.check_id && !includesB "<title>".data c then
    (replaceFirstCI "<head>".data
       ("<head>\n    <title>".data ++ titleTextOf env issue ++ "</title>".data) c,
     ["Added title tag: \"" ++ String.mk (titleTextOf env issue) ++ "\""])
  else (c, [])

/-- Route `2_02` (meta description): insertion after `</title>`. -/
def routeDesc (env : FixEnv) (issue : FixIssue) (c : List Char) : List Char × List String :=
  if "2_02".data.isPrefixOf issue.check_id && !jsTruthyL (extractMeta c "description".data) then
    (replaceFirstCI "</title>".data
       ("</title>\n    <meta name=\"description\" content=\"".data ++ descTextOf env issue ++ "\">".data) c,
     ["Added meta description"])
  else (c, [])

/-- Route `1_06` (canonical): insertion after `</title>`. -/
def routeCanonical (env : FixEnv) (issue : FixIssue) (c : List Char) : List Char × List String :=
  if "1_06".data.isPrefixOf issue.check_id && !includesB "rel=\"canonical\"".data c &&
      !includesB relCanonicalSq c then
    (replaceFirstCI "</title>".data
       ("</title>\n    <link rel=\"canonical\" href=\"".data ++ canonicalOf env issue ++ "\">".data) c,
     ["Added canonical tag: " ++ String.mk (canonicalOf env issue)])
  else (c, [])

/-- Route `1_07` (meta robots): insertion after `</title>`. -/
def routeMetaRobots (_env : FixEnv) (issue : FixIssue) (c : List Char) : List Char × List String :=
  if "1_07".data.isPrefixOf issue.check_id && !jsTruthyL (extractMeta c "robots".data) then
    (replaceFirstCI "</title>".data
       "</title>\n    <meta name=\"robots\" content=\"index, follow\">".data c,
     ["Added meta robots: index, follow"])
  else (c, [])

/-- Route `1_13` (viewport): insertion after `<head>`. -/
def routeViewport (_env : FixEnv) (issue : FixIssue) (c : List Char) : List Char × List String :=
  if "1_13".data.isPrefixOf issue.check_id && !jsTruthyL (extractMeta c "viewport".data) then
    (replaceFirstCI "<head>".data
       "<head>\n    <meta name=\"viewport\" content=\"width=device-width, initial-scale=1.0\">".data c,
     ["Added viewport meta tag"])
  else (c, [])

/-- Route `1_14` (charset): insertion after `<head>`. -/
def routeCharset (_env : FixEnv) (issue : FixIssue) (c : List Char) : List Char × List String :=
  if "1_14".data.isPrefixOf issue.check_id && !includesB "charset".data c then
    (replaceFirstCI "<head>".data "<head>\n    <meta charset=\"UTF-8\">".data c,
     ["Added charset UTF-8"])
  else (c, [])

/-- Model of `fix_instruction.split(":")[0] || ""` of the open-graph route. -/
def ogPropOf (issue : FixIssue) : List Char :=
  (splitOnCh ':' issue.fix_instruction).headD []

/-- Model of `fix_instruction.split(":").slice(1).join(":").trim()` of the og route. -/
def ogValueOf (issue : FixIssue) : List Char :=
  trimWs (List.intercalate ":".data ((splitOnCh ':' issue.fix_instruction).drop 1))

/-- Route for open-graph ids (`4_*` containing `og_`): insertion before
`</head>`, keyed on the `prop: value` shape of the fix instruction. -/
def routeOg (_env : FixEnv) (issue : FixIssue) (c : List Char) : List Char × List String :=
  if "4_".data.isPrefixOf issue.check_id && includesB "og_".data issue.check_id then
    if !(ogPropOf issue).isEmpty && !jsTruthyL (extractMeta c (ogPropOf issue)) then
      if !(ogValueOf issue).isEmpty then
        (replaceFirstCI "</head>".data
           ("    <meta property=\"".data ++ ogPropOf issue ++ "\" content=\"".data ++
            ogValueOf issue ++ "\">\n</head>".data) c,
         ["Added " ++ String.mk (ogPropOf issue) ++ " tag"])
      else (c, [])
    else (c, [])
  else (c, [])

/-- Route `1_15` (lang attribute): rewrite the opening `<html`. -/
def routeLang (_env : FixEnv) (issue : FixIssue) (c : List Char) : List Char × List String :=
  if "1_15".data.isPrefixOf issue.check_id && !testPat htmlLangToks c then
    (replaceFirstCI "<html".data "<html lang=\"en\"".data c,
     ["Added lang=\"en\" to <html>"])
  else (c, [])

/-- The body of the `for (const issue of issues)` loop: the eight guarded
prefix routes applied in source order to the current document text, returning
the new text and the change descriptions pushed for this issue. -/
def applyIssue (env : FixEnv) (c : List Char) (issue : FixIssue) : List Char × List String :=
  let r1 := routeTitle env issue c
  let r2 := routeDesc env issue r1.1
  let r3 := routeCanonical env issue r2.1
  let r4 := routeMetaRobots env issue r3.1
  let r5 := routeViewport env issue r4.1
  let r6 := routeCharset env issue r5.1
  let r7 := routeOg env issue r6.1
  let r8 := routeLang env issue r7.1
  (r8.1, r1.2 ++ r2.2 ++ r3.2 ++ r4.2 ++ r5.2 ++ r6.2 ++ r7.2 ++ r8.2)

/-- The pure document transformation of `fixSeoIssues`: fold the issue list
over the document, accumulating change descriptions in order. -/
def fixSeoIssuesPure (env : FixEnv) (content : List Char)
    (issues : List FixIssue) : List Char × List String :=
  issues.foldl (fun acc issue =>
    let r := applyIssue env acc.1 issue
    (r.1, acc.2 ++ r.2)) (content, [])

/-- Model of `fixSeoIssues`: fails with the file-not-found condition when the stored
document is absent (before any edit); otherwise transforms the document and
reports sizes and changes.  The second component of the `ok` result is the
text written back to the store. -/
def fixSeoIssues (doc : Option (List Char)) (filePath : String)
    (issues : List FixIssue) (env : FixEnv) :
    Except String (RemediationOutcome × List Char) :=
  match doc with
  | none => Except.error ("File not found: " ++ filePath)
  | some content =>
    let r := fixSeoIssuesPure env content issues
    Except.ok ({ original_size := content.length, fixed_size := r.1.length,
                 changes := r.2 }, r.1)

/-- Check-ids claimed by some remediation route (the eight guards). -/
def routedCheckId (id : List Char) : Bool :=
  "2_01".data.isPrefixOf id || "2_02".data.isPrefixOf id || "1_06".data.isPrefixOf id ||
  "1_07".data.isPrefixOf id || "1_13".data.isPrefixOf id || "1_14".data.isPrefixOf id ||
  ("4_".data.isPrefixOf id && includesB "og_".data id) || "1_15".data.isPrefixOf id

/-! ## Aggregation lemmas -/

/-- The priority fixes contributed by a list of families, in discovery order. -/
def fixesOf (store : Checklist) (allChecks : List (String × List (String × ItemResult))) :
    List PriorityFix :=
  allChecks.flatMap fun sec =>
    (sec.2.filter fun e => badStatus e.2).map fun e => mkFix (sectionLabelOf store sec.1) e.1 e.2

/-- One item bumps `totalChecks` by one, bumps the status-counter sum by one,
and appends its `PriorityFix` exactly when its status is bad. -/
theorem stepItem_spec (lbl : String) (acc : Agg × Nat × Nat) (e : String × ItemResult) :
    (stepItem lbl acc e).1.totalChecks = acc.1.totalChecks + 1 ∧
    (stepItem lbl acc e).1.passed + (stepItem lbl acc e).1.failed +
      (stepItem lbl acc e).1.partialN + (stepItem lbl acc e).1.na
      = acc.1.passed + acc.1.failed + acc.1.partialN + acc.1.na + 1 ∧
    (stepItem lbl acc e).1.fixes
      = acc.1.fixes ++ (if badStatus e.2 then [mkFix lbl e.1 e.2] else []) := by
  obtain ⟨g, sp, sf⟩ := acc
  obtain ⟨cid, r⟩ := e
  by_cases h1 : r.status = "done" <;> by_cases h2 : r.status = "partial" <;>
    by_cases h3 : r.status = "not_applicable" <;>
    simp [stepItem, badStatus, h1, h2, h3] <;> omega

/-- Folding `stepItem` over a family: counters and fixes accumulate. -/
theorem foldl_stepItem_spec (lbl : String) (items : List (String × ItemResult)) :
    ∀ acc : Agg × Nat × Nat,
    (items.foldl (stepItem lbl) acc).1.totalChecks = acc.1.totalChecks + items.length ∧
    (items.foldl (stepItem lbl) acc).1.passed + (items.foldl (stepItem lbl) acc).1.failed +
      (items.foldl (stepItem lbl) acc).1.partialN + (items.foldl (stepItem lbl) acc).1.na
      = acc.1.passed + acc.1.failed + acc.1.partialN + acc.1.na + items.length ∧
    (items.foldl (stepItem lbl) acc).1.fixes
      = acc.1.fixes ++ (items.filter fun e => badStatus e.2).map (fun e => mkFix lbl e.1 e.2) := by
  induction items with
  | nil => intro acc; simp
  | cons e rest ih =>
    intro acc
    simp only [List.foldl_cons, List.filter_cons, List.length_cons]
    obtain ⟨h1, h2, h3⟩ := ih (stepItem lbl acc e)
    obtain ⟨s1, s2, s3⟩ := stepItem_spec lbl acc e
    refine ⟨by omega, by omega, ?_⟩
    rw [h3, s3]
    split <;> simp

/-- A family contributes its item count to `totalChecks` and to the sum of
the four status counters, and its bad items to the fix queue. -/
theorem processSection_spec (store : Checklist) (g : Agg)
    (sec : String × List (String × ItemResult)) :
    (processSection store g sec).totalChecks = g.totalChecks + sec.2.length ∧
    (processSection store g sec).passed + (processSection store g sec).failed +
      (processSection store g sec).partialN + (processSection store g sec).na
      = g.passed + g.failed + g.partialN + g.na + sec.2.length ∧
    (processSection store g sec).fixes
      = g.fixes ++ (sec.2.filter fun e => badStatus e.2).map
          (fun e => mkFix (sectionLabelOf store sec.1) e.1 e.2) := by
  obtain ⟨h1, h2, h3⟩ := foldl_stepItem_spec (sectionLabelOf store sec.1) sec.2 (g, 0, 0)
  simp only [processSection]
  exact ⟨h1, h2, h3⟩

/-- Folding over all families. -/
theorem foldl_processSection_spec (store : Checklist)
    (secs : List (String × List (String × ItemResult))) :
    ∀ g : Agg,
    (secs.foldl (processSection store) g).totalChecks
      = g.totalChecks + (secs.map fun sec => sec.2.length).sum ∧
    (secs.foldl (processSection store) g).passed + (secs.foldl (processSection store) g).failed +
      (secs.foldl (processSection store) g).partialN + (secs.foldl (processSection store) g).na
      = g.passed + g.failed + g.partialN + g.na + (secs.map fun sec => sec.2.length).sum ∧
    (secs.foldl (processSection store) g).fixes = g.fixes ++ fixesOf store secs := by
  induction secs with
  | nil => intro g; simp [fixesOf]
  | cons sec rest ih =>
    intro g
    simp only [List.foldl_cons, List.map_cons, List.sum_cons]
    obtain ⟨h1, h2, h3⟩ := ih (processSection store g sec)
    obtain ⟨s1, s2, s3⟩ := processSection_spec store g sec
    refine ⟨by omega, by omega, ?_⟩
    rw [h3, s3]
    simp [fixesOf, List.append_assoc]

/-- The whole aggregation: `totalChecks` equals the sum of the four status
counters, and the (pre-sort) fixes are exactly the bad items. -/
theorem auditAgg_spec (store : Checklist) (html : List Char)
    (headers : List (List Char × List Char)) (robotsTxt sitemapXml : Option (List Char))
    (url : List Char) :
    (auditAgg store html headers robotsTxt sitemapXml url).totalChecks
      = (auditAgg store html headers robotsTxt sitemapXml url).passed +
        (auditAgg store html headers robotsTxt sitemapXml url).failed +
        (auditAgg store html headers robotsTxt sitemapXml url).partialN +
        (auditAgg store html headers robotsTxt sitemapXml url).na ∧
    (auditAgg store html headers robotsTxt sitemapXml url).fixes
      = fixesOf store (mkAllChecks store html headers url robotsTxt sitemapXml) := by
  obtain ⟨h1, h2, h3⟩ := foldl_processSection_spec store
    (mkAllChecks store html headers url robotsTxt sitemapXml) Agg.init
  dsimp only [Agg.init] at h1 h2 h3
  refine ⟨?_, ?_⟩
  · simp only [auditAgg, Agg.init]
    omega
  · simpa only [auditAgg, Agg.init] using h3

/-- Model of `mathRound100` agrees with `Math.round((passed / applicable) * 100)`
expressed with the exact rational rounding function. -/
theorem mathRound100_eq_round (p a : Nat) (h : 0 < a) :
    mathRound100 p a = (round ((p : ℚ) / (a : ℚ) * 100)).toNat := by
  have ha : (a : ℚ) ≠ 0 := by positivity
  rw [round_eq]
  have hq : (p : ℚ) / (a : ℚ) * 100 + 1 / 2 =
      ((200 * p + a : ℕ) : ℚ) / ((2 * a : ℕ) : ℚ) := by
    push_cast
    field_simp
    ring
  rw [hq, Int.floor_toNat, Nat.floor_div_nat]
  rfl

/-- The score stays at most `100` whenever `passed ≤ applicable`. -/
theorem mathRound100_le (p a : Nat) (h : 0 < a) (hpa : p ≤ a) : mathRound100 p a ≤ 100 := by
  have h101 : mathRound100 p a < 101 := by
    rw [mathRound100, Nat.div_lt_iff_lt_mul (by omega : 0 < 2 * a)]
    omega
  omega

/-- The sorted queue is a permutation of the discovered fixes. -/
theorem audit_fixes_perm (store : Checklist) (html : List Char)
    (headers : List (List Char × List Char)) (robotsTxt sitemapXml : Option (List Char))
    (url : List Char) (ts : String) :
    List.Perm (auditWebsitePure store html headers robotsTxt sitemapXml url ts).priority_fixes
      (fixesOf store (mkAllChecks store html headers url robotsTxt sitemapXml)) := by
  have h2 := (auditAgg_spec store html headers robotsTxt sitemapXml url).2
  have hp := List.mergeSort_perm (auditAgg store html headers robotsTxt sitemapXml url).fixes
    (fun a b => Nat.ble (fixKey a) (fixKey b))
  exact h2 ▸ hp

/-- Membership in the returned queue characterised by the originating item. -/
theorem mem_priority_fixes (store : Checklist) (html : List Char)
    (headers : List (List Char × List Char)) (robotsTxt sitemapXml : Option (List Char))
    (url : List Char) (ts : String) (f : PriorityFix) :
    f ∈ (auditWebsitePure store html headers robotsTxt sitemapXml url ts).priority_fixes ↔
    ∃ sec ∈ mkAllChecks store html headers url robotsTxt sitemapXml,
      ∃ e ∈ sec.2, badStatus e.2 = true ∧ f = mkFix (sectionLabelOf store sec.1) e.1 e.2 := by
  rw [(audit_fixes_perm store html headers robotsTxt sitemapXml url ts).mem_iff]
  simp only [fixesOf, List.mem_flatMap, List.mem_map, List.mem_filter]
  constructor
  · rintro ⟨sec, hsec, e, ⟨he, hbad⟩, rfl⟩
    exact ⟨sec, hsec, e, he, hbad, rfl⟩
  · rintro ⟨sec, hsec, e, he, hbad, rfl⟩
    exact ⟨sec, hsec, e, ⟨he, hbad⟩, rfl⟩

/-! ## Claim C3 -/

/-- Claim C3: for every `AuditResult` returned by the audit,
`total_checks = passed + failed + partial + not_applicable` exactly (each
evaluated item lands in exactly one of the four status counters). -/
theorem claim_C3_total_checks (store : Checklist) (html : List Char)
    (headers : List (List Char × List Char)) (robotsTxt sitemapXml : Option (List Char))
    (url : List Char) (ts : String) :
    (auditWebsitePure store html headers robotsTxt sitemapXml url ts).total_checks
      = (auditWebsitePure store html headers robotsTxt sitemapXml url ts).passed +
        (auditWebsitePure store html headers robotsTxt sitemapXml url ts).failed +
        (auditWebsitePure store html headers robotsTxt sitemapXml url ts).partialN +
        (auditWebsitePure store html headers robotsTxt sitemapXml url ts).not_applicable :=
  (auditAgg_spec store html headers robotsTxt sitemapXml url).1

/-! ## Claim C4 -/

/-- Claim C4: `score_percentage` is `round(passed / (total_checks -
not_applicable) * 100)` when the denominator is positive, `0` when the
denominator is `0`, and is always at most `100`. -/
theorem claim_C4_score (store : Checklist) (html : List Char)
    (headers : List (List Char × List Char)) (robotsTxt sitemapXml : Option (List Char))
    (url : List Char) (ts : String) :
    (0 < (auditWebsitePure store html headers robotsTxt sitemapXml url ts).total_checks -
        (auditWebsitePure store html headers robotsTxt sitemapXml url ts).not_applicable →
      (auditWebsitePure store html headers robotsTxt sitemapXml url ts).score_percentage
        = (round (((auditWebsitePure store html headers robotsTxt sitemapXml url ts).passed : ℚ) /
            (((auditWebsitePure store html headers robotsTxt sitemapXml url ts).total_checks -
              (auditWebsitePure store html headers robotsTxt sitemapXml url ts).not_applicable : Nat) : ℚ)
            * 100)).toNat) ∧
    ((auditWebsitePure store html headers robotsTxt sitemapXml url ts).total_checks -
        (auditWebsitePure store html headers robotsTxt sitemapXml url ts).not_applicable = 0 →
      (auditWebsitePure store html headers robotsTxt sitemapXml url ts).score_percentage = 0) ∧
    (auditWebsitePure store html headers robotsTxt sitemapXml url ts).score_percentage ≤ 100 := by
  have hinv := (auditAgg_spec store html headers robotsTxt sitemapXml url).1
  have hT : (auditWebsitePure store html headers robotsTxt sitemapXml url ts).total_checks
      = (auditAgg store html headers robotsTxt sitemapXml url).totalChecks := rfl
  have hP : (auditWebsitePure store html headers robotsTxt sitemapXml url ts).passed
      = (auditAgg store html headers robotsTxt sitemapXml url).passed := rfl
  have hN : (auditWebsitePure store html headers robotsTxt sitemapXml url ts).not_applicable
      = (auditAgg store html headers robotsTxt sitemapXml url).na := rfl
  have hS : (auditWebsitePure store html headers robotsTxt sitemapXml url ts).score_percentage
      = if 0 < (auditAgg store html headers robotsTxt sitemapXml url).totalChecks -
            (auditAgg store html headers robotsTxt sitemapXml url).na then
          mathRound100 (auditAgg store html headers robotsTxt sitemapXml url).passed
            ((auditAgg store html headers robotsTxt sitemapXml url).totalChecks -
             (auditAgg store html headers robotsTxt sitemapXml url).na)
        else 0 := rfl
  rw [hT, hP, hN, hS]
  refine ⟨?_, ?_, ?_⟩
  · intro hpos
    rw [if_pos hpos]
    exact mathRound100_eq_round _ _ hpos
  · intro hz
    rw [if_neg (by omega)]
  · split
    · exact mathRound100_le _ _ (by assumption) (by omega)
    · omega

/-! ## Claim C5 -/

/-- Claim C5: the returned `priority_fixes` are, up to the (stable) sort, exactly
one entry per evaluated item whose status is neither `done` nor
`not_applicable` — no entry for a `done`/`not_applicable` item, and exactly one
entry for every `missing`/`partial` item. -/
theorem claim_C5_fix_queue (store : Checklist) (html : List Char)
    (headers : List (List Char × List Char)) (robotsTxt sitemapXml : Option (List Char))
    (url : List Char) (ts : String) :
    List.Perm (auditWebsitePure store html headers robotsTxt sitemapXml url ts).priority_fixes
      (fixesOf store (mkAllChecks store html headers url robotsTxt sitemapXml)) :=
  audit_fixes_perm store html headers robotsTxt sitemapXml url ts

/-! ## Claim C1 -/

/-- Modelled from the spec: the priority rank the claim asserts —
`critical(0) < high(1) < medium(2) < low(3)`, with any unknown priority
ranking as `low`.  For comparison with the `fixKey` of the code. -/
def specPriorityRank (p : String) : Nat :=
  if p = "critical" then 0
  else if p = "high" then 1
  else if p = "medium" then 2
  else 3

/-- The checklist store when unavailable (every lookup fails; the source
degrades to built-in defaults). -/
def emptyChecklist : Checklist := fun _ => none

/-- A concrete audit: empty page text, no headers, no robots/sitemap,
an `https` url. -/
def bareAudit : AuditResult :=
  auditWebsitePure emptyChecklist [] [] none none "https://example.com".data
    "2024-01-01T00:00:00.000Z"

/-- Non-decreasing by the spec rank, as an executable check. -/
def sortedBySpecRank : List PriorityFix → Bool
  | [] => true
  | [_] => true
  | a :: b :: rest =>
    Nat.ble (specPriorityRank a.priority) (specPriorityRank b.priority) &&
    sortedBySpecRank (b :: rest)

unseal List.merge List.mergeSort in
/-- Claim C1 (code bug, evaluated at the failing input): the claim says the
returned `priority_fixes` are sorted non-decreasingly by the rank
`critical(0) < high(1) < medium(2) < low(3)`.  On the empty page the queue
contains `critical` fixes, yet its head is a `high` fix and the queue is not
sorted by that rank: `priorityOrder[a.priority] || 3` evaluates to `3` for
`critical` because `0` is falsy in JavaScript. -/
theorem claim_C1_code_bug :
    sortedBySpecRank bareAudit.priority_fixes = false ∧
    bareAudit.priority_fixes.head?.map (fun f => f.priority) = some "high" ∧
    "critical" ∈ bareAudit.priority_fixes.map (fun f => f.priority) ∧
    fixKey ⟨"", "", "critical", "", ""⟩ = 3 := by
  refine ⟨by decide, by decide, by decide, by decide⟩

/-! ## Claim C2 -/

/-- A document with no `<head>` anchor and no title. -/
def noHeadDoc : List Char := "<html></html>".data

/-- A title-family remediation issue. -/
def titleIssue : FixIssue := ⟨"2_01_title_tag".data, "My Title".data⟩

/-- Claim C2 (code bug, evaluated at the failing input): the claim says a second
`fixSeoIssues` run with the same issues produces an empty change log.  On a
document lacking the `<head>` anchor the title route logs
`Added title tag: ...` while `content.replace` changes nothing, so every
rerun logs the same change again: the first run returns the document
unchanged with one change entry, and the second run (on the written text)
logs one change entry again instead of none. -/
theorem claim_C2_code_bug :
    (fixSeoIssues (some noHeadDoc) "index.html" [titleIssue] ⟨none, none⟩).toOption.map
        (fun r => (r.1.original_size, r.1.fixed_size, r.1.changes, r.2))
      = some (13, 13, ["Added title tag: \"My Title\""], noHeadDoc) ∧
    (fixSeoIssuesPure ⟨none, none⟩ (fixSeoIssuesPure ⟨none, none⟩ noHeadDoc [titleIssue]).1
        [titleIssue]).2 = ["Added title tag: \"My Title\""] ∧
    (fixSeoIssuesPure ⟨none, none⟩ (fixSeoIssuesPure ⟨none, none⟩ noHeadDoc [titleIssue]).1
        [titleIssue]).2 ≠ [] := by
  refine ⟨by decide, by decide, by decide⟩

/-! ## Claim C7 -/

/-- Claim C7: `fixSeoIssues` fails with the document-not-found condition exactly
when the stored document is absent, and then nothing has been written; with a
present document it always succeeds, returning the transformed text; and an
issue whose check-id matches no route is silently skipped (document unchanged,
no change-log entry, no error). -/
theorem claim_C7_error_handling :
    (∀ (path : String) (issues : List FixIssue) (env : FixEnv),
      fixSeoIssues none path issues env = Except.error ("File not found: " ++ path)) ∧
    (∀ (doc : List Char) (path : String) (issues : List FixIssue) (env : FixEnv),
      fixSeoIssues (some doc) path issues env
        = Except.ok (⟨doc.length, (fixSeoIssuesPure env doc issues).1.length,
            (fixSeoIssuesPure env doc issues).2⟩, (fixSeoIssuesPure env doc issues).1)) ∧
    (∀ (env : FixEnv) (c : List Char) (issue : FixIssue),
      routedCheckId issue.check_id = false → applyIssue env c issue = (c, [])) := by
  refine ⟨fun path issues env => rfl, fun doc path issues env => rfl, ?_⟩
  intro env c issue h
  simp only [routedCheckId, Bool.or_eq_false_iff] at h
  obtain ⟨⟨⟨⟨⟨⟨⟨h1, h2⟩, h3⟩, h4⟩, h5⟩, h6⟩, h7⟩, h8⟩ := h
  have r1 : ∀ d, routeTitle env issue d = (d, []) := by
    intro d; unfold routeTitle; rw [h1]; simp
  have r2 : ∀ d, routeDesc env issue d = (d, []) := by
    intro d; unfold routeDesc; rw [h2]; simp
  have r3 : ∀ d, routeCanonical env issue d = (d, []) := by
    intro d; unfold routeCanonical; rw [h3]; simp
  have r4 : ∀ d, routeMetaRobots env issue d = (d, []) := by
    intro d; unfold routeMetaRobots; rw [h4]; simp
  have r5 : ∀ d, routeViewport env issue d = (d, []) := by
    intro d; unfold routeViewport; rw [h5]; simp
  have r6 : ∀ d, routeCharset env issue d = (d, []) := by
    intro d; unfold routeCharset; rw [h6]; simp
  have r7 : ∀ d, routeOg env issue d = (d, []) := by
    intro d; unfold routeOg; rw [h7]; simp
  have r8 : ∀ d, routeLang env issue d = (d, []) := by
    intro d; unfold routeLang; rw [h8]; simp
  simp [applyIssue, r1, r2, r3, r4, r5, r6, r7, r8]

/-- Witness for C7 at concrete inputs. -/
theorem claim_C7_witness :
    fixSeoIssues none "site.html" [] (⟨none, none⟩ : FixEnv)
      = Except.error "File not found: site.html" ∧
    routedCheckId "9_99_unknown".data = false ∧
    applyIssue ⟨none, none⟩ "<p>x</p>".data ⟨"9_99_unknown".data, "y".data⟩
      = ("<p>x</p>".data, []) :=
  ⟨claim_C7_error_handling.1 "site.html" [] ⟨none, none⟩, by decide,
   claim_C7_error_handling.2.2 ⟨none, none⟩ "<p>x</p>".data
     ⟨"9_99_unknown".data, "y".data⟩ (by decide)⟩

/-- Witness for C4 at a concrete audit. -/
theorem claim_C4_witness :
    0 < bareAudit.total_checks - bareAudit.not_applicable ∧
    bareAudit.score_percentage
      = (round ((bareAudit.passed : ℚ) /
          ((bareAudit.total_checks - bareAudit.not_applicable : Nat) : ℚ) * 100)).toNat :=
  ⟨by decide,
   (claim_C4_score emptyChecklist [] [] none none "https://example.com".data
      "2024-01-01T00:00:00.000Z").1 (by decide)⟩

/-! ## Claim C10 -/

/-- A successful case-insensitive strip consumes exactly the pattern length. -/
theorem ciStrip_length : ∀ (pat s r : List Char), ciStrip pat s = some r →
    s.length = pat.length + r.length := by
  intro pat
  induction pat with
  | nil =>
    intro s r h
    simp only [ciStrip, Option.some.injEq] at h
    subst h
    simp
  | cons a as ih =>
    intro s r h
    cases s with
    | nil => simp [ciStrip] at h
    | cons b bs =>
      simp only [ciStrip] at h
      by_cases hc : ciEqChar a b
      · rw [if_pos hc] at h
        have := ih bs r h
        simp only [List.length_cons]
        omega
      · rw [if_neg hc] at h
        exact absurd h (by simp)

/-- A found pattern fits inside the text. -/
theorem findCIGo_bound (pat : List Char) : ∀ (s : List Char) (k i : Nat),
    findCIGo pat k s = some i → k ≤ i ∧ i - k + pat.length ≤ s.length := by
  intro s
  induction s with
  | nil =>
    intro k i h
    simp only [findCIGo] at h
    split at h
    · cases h
      rename_i hs
      obtain ⟨r, hr⟩ := Option.isSome_iff_exists.mp hs
      have := ciStrip_length pat [] r hr
      simp at this
      omega
    · cases h
  | cons c rest ih =>
    intro k i h
    simp only [findCIGo] at h
    split at h
    · cases h
      rename_i hs
      obtain ⟨r, hr⟩ := Option.isSome_iff_exists.mp hs
      have := ciStrip_length pat (c :: rest) r hr
      simp only [List.length_cons] at this ⊢
      omega
    · have := ih (k + 1) i h
      simp only [List.length_cons]
      omega

/-- Model of `findCI` returns a position at which the pattern fits. -/
theorem findCI_bound (pat s : List Char) (i : Nat) (h : findCI pat s = some i) :
    i + pat.length ≤ s.length := by
  have := findCIGo_bound pat s 0 i h
  omega

/-- Dollar-free prefixes pass through the replacement substitution
untouched. -/
theorem getSubstitution_dollar_free (m b a : List Char) :
    ∀ (x y : List Char), '$' ∉ x →
    getSubstitution m b a (x ++ y) = x ++ getSubstitution m b a y := by
  intro x
  induction x with
  | nil => intro y _; simp
  | cons c x2 ih =>
    intro y hx
    have hc : ¬ c = '$' := fun h => hx (by simp [h])
    have hx2 : ('$' : Char) ∉ x2 := fun h => hx (List.mem_cons_of_mem _ h)
    cases x2 with
    | nil =>
      cases y with
      | nil => rfl
      | cons d y2 =>
        show getSubstitution m b a (c :: d :: y2) = c :: getSubstitution m b a (d :: y2)
        simp only [getSubstitution]
        rw [if_neg hc]
    | cons c2 x3 =>
      show getSubstitution m b a (c :: c2 :: (x3 ++ y)) = _
      simp only [getSubstitution]
      rw [if_neg hc]
      have := ih y hx2
      simp only [List.cons_append] at this ⊢
      rw [this]

/-- Dollar-free strings substitute to themselves. -/
theorem getSubstitution_eq_self (m b a x : List Char) (hx : '$' ∉ x) :
    getSubstitution m b a x = x := by
  have h := getSubstitution_dollar_free m b a x [] hx
  simpa [getSubstitution] using h

/-- Replacing by a fragment whose dollar-free prefix is at least as long as
the anchor never shrinks the text. -/
theorem replaceFirstCI_length_ge (pat x y s : List Char)
    (hx : '$' ∉ x) (h : pat.length ≤ x.length) :
    s.length ≤ (replaceFirstCI pat (x ++ y) s).length := by
  cases hf : findCI pat s with
  | none =>
    unfold replaceFirstCI
    rw [hf]
  | some i =>
    have hb := findCI_bound pat s i hf
    unfold replaceFirstCI
    rw [hf]
    show s.length ≤ (s.take i ++
      getSubstitution ((s.drop i).take pat.length) (s.take i) (s.drop (i + pat.length)) (x ++ y) ++
      s.drop (i + pat.length)).length
    rw [getSubstitution_dollar_free _ _ _ x y hx]
    simp only [List.length_append, List.length_take, List.length_drop]
    omega

/-- The same for a wholly dollar-free replacement. -/
theorem replaceFirstCI_length_ge_lit (pat repl s : List Char)
    (hr : '$' ∉ repl) (h : pat.length ≤ repl.length) :
    s.length ≤ (replaceFirstCI pat repl s).length := by
  have h2 := replaceFirstCI_length_ge pat repl [] s hr h
  rw [List.append_nil] at h2
  exact h2

/-- Each route never shrinks the document. -/
theorem routeTitle_length (env : FixEnv) (issue : FixIssue) (c : List Char) :
    c.length ≤ (routeTitle env issue c).1.length := by
  unfold routeTitle
  split
  · rw [List.append_assoc]
    exact replaceFirstCI_length_ge _ _ _ _ (by decide) (by decide)
  · exact Nat.le_refl _

/-- Each route never shrinks the document. -/
theorem routeDesc_length (env : FixEnv) (issue : FixIssue) (c : List Char) :
    c.length ≤ (routeDesc env issue c).1.length := by
  unfold routeDesc
  split
  · rw [List.append_assoc]
    exact replaceFirstCI_length_ge _ _ _ _ (by decide) (by decide)
  · exact Nat.le_refl _

/-- Each route never shrinks the document. -/
theorem routeCanonical_length (env : FixEnv) (issue : FixIssue) (c : List Char) :
    c.length ≤ (routeCanonical env issue c).1.length := by
  unfold routeCanonical
  split
  · rw [List.append_assoc]
    exact replaceFirstCI_length_ge _ _ _ _ (by decide) (by decide)
  · exact Nat.le_refl _

/-- Each route never shrinks the document. -/
theorem routeMetaRobots_length (env : FixEnv) (issue : FixIssue) (c : List Char) :
    c.length ≤ (routeMetaRobots env issue c).1.length := by
  unfold routeMetaRobots
  split
  · exact replaceFirstCI_length_ge_lit _ _ _ (by decide) (by decide)
  · exact Nat.le_refl _

/-- Each route never shrinks the document. -/
theorem routeViewport_length (env : FixEnv) (issue : FixIssue) (c : List Char) :
    c.length ≤ (routeViewport env issue c).1.length := by
  unfold routeViewport
  split
  · exact replaceFirstCI_length_ge_lit _ _ _ (by decide) (by decide)
  · exact Nat.le_refl _

/-- Each route never shrinks the document. -/
theorem routeCharset_length (env : FixEnv) (issue : FixIssue) (c : List Char) :
    c.length ≤ (routeCharset env issue c).1.length := by
  unfold routeCharset
  split
  · exact replaceFirstCI_length_ge_lit _ _ _ (by decide) (by decide)
  · exact Nat.le_refl _

/-- Each route never shrinks the document. -/
theorem routeOg_length (env : FixEnv) (issue : FixIssue) (c : List Char) :
    c.length ≤ (routeOg env issue c).1.length := by
  unfold routeOg
  split
  · split
    · split
      · simp only [List.append_assoc]
        exact replaceFirstCI_length_ge _ _ _ _ (by decide) (by decide)
      · exact Nat.le_refl _
    · exact Nat.le_refl _
  · exact Nat.le_refl _

/-- Each route never shrinks the document. -/
theorem routeLang_length (env : FixEnv) (issue : FixIssue) (c : List Char) :
    c.length ≤ (routeLang env issue c).1.length := by
  unfold routeLang
  split
  · exact replaceFirstCI_length_ge_lit _ _ _ (by decide) (by decide)
  · exact Nat.le_refl _

/-- One issue never shrinks the document. -/
theorem applyIssue_length (env : FixEnv) (c : List Char) (issue : FixIssue) :
    c.length ≤ (applyIssue env c issue).1.length := by
  unfold applyIssue
  calc c.length ≤ (routeTitle env issue c).1.length := routeTitle_length env issue c
  _ ≤ (routeDesc env issue (routeTitle env issue c).1).1.length := routeDesc_length env issue _
  _ ≤ _ := routeCanonical_length env issue _
  _ ≤ _ := routeMetaRobots_length env issue _
  _ ≤ _ := routeViewport_length env issue _
  _ ≤ _ := routeCharset_length env issue _
  _ ≤ _ := routeOg_length env issue _
  _ ≤ _ := routeLang_length env issue _

/-- The issue fold never shrinks the document. -/
theorem foldIssues_length (env : FixEnv) (issues : List FixIssue) :
    ∀ acc : List Char × List String,
    acc.1.length ≤ (issues.foldl (fun acc issue =>
      let r := applyIssue env acc.1 issue
      (r.1, acc.2 ++ r.2)) acc).1.length := by
  induction issues with
  | nil => intro acc; exact Nat.le_refl _
  | cons issue rest ih =>
    intro acc
    rw [List.foldl_cons]
    exact Nat.le_trans (applyIssue_length env acc.1 issue)
      (ih ((applyIssue env acc.1 issue).1, acc.2 ++ (applyIssue env acc.1 issue).2))

/-- Claim C10: every remediation route only inserts text (each applied
replacement is at least as long as its anchor), so the remediated document is
never shorter than the original and the reported `fixed_size` is at least
`original_size`. -/
theorem claim_C10_size_monotone :
    (∀ (env : FixEnv) (c : List Char) (issues : List FixIssue),
      c.length ≤ (fixSeoIssuesPure env c issues).1.length) ∧
    (∀ (doc : List Char) (path : String) (issues : List FixIssue) (env : FixEnv)
        (out : RemediationOutcome) (written : List Char),
      fixSeoIssues (some doc) path issues env = Except.ok (out, written) →
      out.original_size ≤ out.fixed_size) := by
  have hpure : ∀ (env : FixEnv) (c : List Char) (issues : List FixIssue),
      c.length ≤ (fixSeoIssuesPure env c issues).1.length := by
    intro env c issues
    exact foldIssues_length env issues (c, [])
  refine ⟨hpure, ?_⟩
  intro doc path issues env out written h
  simp only [fixSeoIssues, Except.ok.injEq, Prod.mk.injEq] at h
  obtain ⟨hout, -⟩ := h
  rw [← hout]
  exact hpure env doc issues

/-- Witness for C10 at a concrete remediation. -/
theorem claim_C10_witness :
    ("<p>x</p>".data).length ≤ (fixSeoIssuesPure ⟨none, none⟩ "<p>x</p>".data [titleIssue]).1.length ∧
    (13 : Nat) ≤ (fixSeoIssuesPure ⟨none, none⟩ noHeadDoc [titleIssue]).1.length :=
  ⟨claim_C10_size_monotone.1 ⟨none, none⟩ "<p>x</p>".data [titleIssue],
   claim_C10_size_monotone.2 noHeadDoc "index.html" [titleIssue] ⟨none, none⟩
     ⟨noHeadDoc.length, (fixSeoIssuesPure ⟨none, none⟩ noHeadDoc [titleIssue]).1.length,
      (fixSeoIssuesPure ⟨none, none⟩ noHeadDoc [titleIssue]).2⟩
     (fixSeoIssuesPure ⟨none, none⟩ noHeadDoc [titleIssue]).1 rfl⟩

/-! ## Claim C8 -/

/-- Status of a check in an evaluator output. -/
def itemStatus (items : List (String × ItemResult)) (id : String) : Option String :=
  (items.lookup id).map fun r => r.status

/-- A page with a 45-character title. -/
def title45Html : List Char :=
  "<title>123456789012345678901234567890123456789012345</title>".data

/-- A page with a 10-character title. -/
def title10Html : List Char := "<title>HelloWorld</title>".data

/-- Claim C8 (counterexample): the claim says a present title whose length is
outside `[30,70]` classifies as `partial`.  On `<title></title>` the title
regex matches with an empty capture — a title is present with length `0` —
yet the empty string is falsy in JavaScript, so the check reports `missing`,
not `partial`. -/
theorem claim_C8_counterexample :
    extractTitle "<title></title>".data = some [] ∧
    itemStatus (auditOnPageSeo emptyChecklist "<title></title>".data) "2_01_title_tag"
      = some "missing" ∧
    "missing" ≠ "partial" := by
  refine ⟨by decide, by decide, by decide⟩

/-- Claim C8 (amended): the title-length check is `done` exactly when a
*nonempty* title is extracted with length in `[30,70]`, `partial` when a
nonempty title is extracted with length outside that range, and `missing`
when no title is extracted *or the extracted title is empty*; likewise the
meta-description check with the inclusive range `[100,170]`.  In particular a
45-character title yields `done` and a 10-character title yields `partial`. -/
theorem claim_C8_thresholds (store : Checklist) (html : List Char) :
    (∀ t : List Char, extractTitle html = some t → t ≠ [] → 30 ≤ t.length → t.length ≤ 70 →
      itemStatus (auditOnPageSeo store html) "2_01_title_tag" = some "done") ∧
    (∀ t : List Char, extractTitle html = some t → t ≠ [] → (t.length < 30 ∨ 70 < t.length) →
      itemStatus (auditOnPageSeo store html) "2_01_title_tag" = some "partial") ∧
    (extractTitle html = none ∨ extractTitle html = some [] →
      itemStatus (auditOnPageSeo store html) "2_01_title_tag" = some "missing") ∧
    (∀ d : List Char, extractMeta html "description".data = some d → d ≠ [] →
        100 ≤ d.length → d.length ≤ 170 →
      itemStatus (auditOnPageSeo store html) "2_02_meta_description" = some "done") ∧
    (∀ d : List Char, extractMeta html "description".data = some d → d ≠ [] →
        (d.length < 100 ∨ 170 < d.length) →
      itemStatus (auditOnPageSeo store html) "2_02_meta_description" = some "partial") ∧
    (extractMeta html "description".data = none ∨ extractMeta html "description".data = some [] →
      itemStatus (auditOnPageSeo store html) "2_02_meta_description" = some "missing") ∧
    itemStatus (auditOnPageSeo emptyChecklist title45Html) "2_01_title_tag" = some "done" ∧
    itemStatus (auditOnPageSeo emptyChecklist title10Html) "2_01_title_tag" = some "partial" := by
  have hT : itemStatus (auditOnPageSeo store html) "2_01_title_tag"
      = some (if jsTruthyL (extractTitle html) then
          (if 30 ≤ (if jsTruthyL (extractTitle html) then ((extractTitle html).getD []).length else 0) ∧
              (if jsTruthyL (extractTitle html) then ((extractTitle html).getD []).length else 0) ≤ 70
            then "done" else "partial")
          else "missing") := rfl
  have hD : itemStatus (auditOnPageSeo store html) "2_02_meta_description"
      = some (if jsTruthyL (extractMeta html "description".data) then
          (if 100 ≤ (if jsTruthyL (extractMeta html "description".data) then
                ((extractMeta html "description".data).getD []).length else 0) ∧
              (if jsTruthyL (extractMeta html "description".data) then
                ((extractMeta html "description".data).getD []).length else 0) ≤ 170
            then "done" else "partial")
          else "missing") := rfl
  refine ⟨?_, ?_, ?_, ?_, ?_, ?_, by decide, by decide⟩
  · intro t ht hne h30 h70
    rw [hT, ht]
    have htr : jsTruthyL (some t) = true := by
      simp [jsTruthyL, List.isEmpty_iff, hne]
    rw [htr]
    simp only [if_pos rfl, Option.getD_some, if_true]
    rw [if_pos ⟨h30, h70⟩]
  · intro t ht hne hout
    rw [hT, ht]
    have htr : jsTruthyL (some t) = true := by
      simp [jsTruthyL, List.isEmpty_iff, hne]
    rw [htr]
    simp only [if_pos rfl, Option.getD_some, if_true]
    rw [if_neg (by omega)]
  · intro h
    rcases h with h | h <;> rw [hT, h]
    · rfl
    · rfl
  · intro d hd hne h100 h170
    rw [hD, hd]
    have hdr : jsTruthyL (some d) = true := by
      simp [jsTruthyL, List.isEmpty_iff, hne]
    rw [hdr]
    simp only [if_pos rfl, Option.getD_some, if_true]
    rw [if_pos ⟨h100, h170⟩]
  · intro d hd hne hout
    rw [hD, hd]
    have hdr : jsTruthyL (some d) = true := by
      simp [jsTruthyL, List.isEmpty_iff, hne]
    rw [hdr]
    simp only [if_pos rfl, Option.getD_some, if_true]
    rw [if_neg (by omega)]
  · intro h
    rcases h with h | h <;> rw [hD, h]
    · rfl
    · rfl

/-- Witness for C8 at concrete pages. -/
theorem claim_C8_witness :
    extractTitle title45Html = some "123456789012345678901234567890123456789012345".data ∧
    itemStatus (auditOnPageSeo emptyChecklist title45Html) "2_01_title_tag" = some "done" ∧
    itemStatus (auditOnPageSeo emptyChecklist title10Html) "2_01_title_tag" = some "partial" :=
  ⟨by decide,
   (claim_C8_thresholds emptyChecklist title45Html).1
     "123456789012345678901234567890123456789012345".data (by decide) (by decide)
     (by decide) (by decide),
   (claim_C8_thresholds emptyChecklist title10Html).2.1 "HelloWorld".data (by decide)
     (by decide) (by decide)⟩

/-! ## Claim C9 -/

/-- The image check-ids do not occur in the technical-SEO family. -/
theorem not_img_id_technical (store : Checklist) (html : List Char)
    (headers : List (List Char × List Char)) (url : List Char)
    (robotsTxt sitemapXml : Option (List Char)) :
    ∀ e ∈ auditTechnicalSeo store html headers url robotsTxt sitemapXml,
      e.1 ≠ "2_07_image_alt_tags" ∧ e.1 ≠ "2_08_image_dimensions" := by
  intro e he
  fin_cases he <;> exact ⟨by simp, by simp⟩

/-- The image check-ids do not occur in the schema family. -/
theorem not_img_id_schema (store : Checklist) (html : List Char) :
    ∀ e ∈ auditSchema store html,
      e.1 ≠ "2_07_image_alt_tags" ∧ e.1 ≠ "2_08_image_dimensions" := by
  intro e he
  simp only [auditSchema, schemaChecks, List.map_cons, List.map_nil] at he
  fin_cases he <;> exact ⟨by simp, by simp⟩

/-- The image check-ids do not occur in the open-graph family. -/
theorem not_img_id_og (store : Checklist) (html : List Char) :
    ∀ e ∈ auditOgTags store html,
      e.1 ≠ "2_07_image_alt_tags" ∧ e.1 ≠ "2_08_image_dimensions" := by
  intro e he
  simp only [auditOgTags, ogChecks, List.map_cons, List.map_nil] at he
  fin_cases he <;> exact ⟨by simp, by simp⟩

/-- The image check-ids do not occur in the performance family. -/
theorem not_img_id_performance (store : Checklist) (html : List Char)
    (headers : List (List Char × List Char)) :
    ∀ e ∈ auditPerformance store html headers,
      e.1 ≠ "2_07_image_alt_tags" ∧ e.1 ≠ "2_08_image_dimensions" := by
  intro e he
  fin_cases he <;> exact ⟨by simp, by simp⟩

/-- The image check-ids do not occur in the security family. -/
theorem not_img_id_security (store : Checklist) (headers : List (List Char × List Char)) :
    ∀ e ∈ auditSecurity store headers,
      e.1 ≠ "2_07_image_alt_tags" ∧ e.1 ≠ "2_08_image_dimensions" := by
  intro e he
  simp only [auditSecurity, securityChecks, List.map_cons, List.map_nil] at he
  fin_cases he <;> exact ⟨by simp, by simp⟩

/-- The image check-ids do not occur in the UX/CRO family. -/
theorem not_img_id_ux (store : Checklist) (html : List Char) :
    ∀ e ∈ auditUxCro store html,
      e.1 ≠ "2_07_image_alt_tags" ∧ e.1 ≠ "2_08_image_dimensions" := by
  intro e he
  fin_cases he <;> exact ⟨by simp, by simp⟩

/-- The image check-ids do not occur in the accessibility family. -/
theorem not_img_id_accessibility (store : Checklist) (html : List Char) :
    ∀ e ∈ auditAccessibility store html,
      e.1 ≠ "2_07_image_alt_tags" ∧ e.1 ≠ "2_08_image_dimensions" := by
  intro e he
  fin_cases he <;> exact ⟨by simp, by simp⟩

/-- The image check-ids do not occur in the legal family. -/
theorem not_img_id_legal (store : Checklist) (html : List Char) :
    ∀ e ∈ auditLegal store html,
      e.1 ≠ "2_07_image_alt_tags" ∧ e.1 ≠ "2_08_image_dimensions" := by
  intro e he
  fin_cases he <;> exact ⟨by simp, by simp⟩

/-- In the on-page family, the image items carry the count-based statuses. -/
theorem onPage_alt_dims (store : Checklist) (html : List Char) :
    ∀ e ∈ auditOnPageSeo store html,
      (e.1 = "2_07_image_alt_tags" → e.2.status =
        (if imgTotal html = 0 then "not_applicable"
         else if imgWithAlt html = imgTotal html then "done"
         else if imgWithAlt html > 0 then "partial" else "missing")) ∧
      (e.1 = "2_08_image_dimensions" → e.2.status =
        (if imgTotal html = 0 then "not_applicable"
         else if imgWithDims html ≥ imgTotal html then "done"
         else if imgWithDims html > 0 then "partial" else "missing")) := by
  intro e he
  fin_cases he <;>
    exact ⟨fun hid => by first | rfl | exact absurd hid (by simp),
           fun hid => by first | rfl | exact absurd hid (by simp)⟩

/-- Claim C9: the count-based image checks are `not_applicable` when the page
has no `<img>` elements, `done` when all images satisfy the property,
`partial` when some but not all do, `missing` when none do; and on a page
with zero `<img>` elements neither image check ever appears in the
`priority_fixes` queue. -/
theorem claim_C9_image_checks (store : Checklist) (html : List Char) :
    (imgTotal html = 0 →
      itemStatus (auditOnPageSeo store html) "2_07_image_alt_tags" = some "not_applicable" ∧
      itemStatus (auditOnPageSeo store html) "2_08_image_dimensions" = some "not_applicable") ∧
    (imgTotal html ≠ 0 → imgWithAlt html = imgTotal html →
      itemStatus (auditOnPageSeo store html) "2_07_image_alt_tags" = some "done") ∧
    (imgTotal html ≠ 0 → 0 < imgWithAlt html → imgWithAlt html < imgTotal html →
      itemStatus (auditOnPageSeo store html) "2_07_image_alt_tags" = some "partial") ∧
    (imgTotal html ≠ 0 → imgWithAlt html = 0 →
      itemStatus (auditOnPageSeo store html) "2_07_image_alt_tags" = some "missing") ∧
    (imgTotal html ≠ 0 → imgWithDims html = imgTotal html →
      itemStatus (auditOnPageSeo store html) "2_08_image_dimensions" = some "done") ∧
    (imgTotal html ≠ 0 → 0 < imgWithDims html → imgWithDims html < imgTotal html →
      itemStatus (auditOnPageSeo store html) "2_08_image_dimensions" = some "partial") ∧
    (imgTotal html ≠ 0 → imgWithDims html = 0 →
      itemStatus (auditOnPageSeo store html) "2_08_image_dimensions" = some "missing") ∧
    (imgTotal html = 0 →
      ∀ (headers : List (List Char × List Char)) (robotsTxt sitemapXml : Option (List Char))
        (url : List Char) (ts : String) (f : PriorityFix),
      f ∈ (auditWebsitePure store html headers robotsTxt sitemapXml url ts).priority_fixes →
      f.check_id ≠ "2_07_image_alt_tags" ∧ f.check_id ≠ "2_08_image_dimensions") := by
  have hA : itemStatus (auditOnPageSeo store html) "2_07_image_alt_tags"
      = some (if imgTotal html = 0 then "not_applicable"
          else if imgWithAlt html = imgTotal html then "done"
          else if imgWithAlt html > 0 then "partial" else "missing") := rfl
  have hD : itemStatus (auditOnPageSeo store html) "2_08_image_dimensions"
      = some (if imgTotal html = 0 then "not_applicable"
          else if imgWithDims html ≥ imgTotal html then "done"
          else if imgWithDims html > 0 then "partial" else "missing") := rfl
  refine ⟨?_, ?_, ?_, ?_, ?_, ?_, ?_, ?_⟩
  · intro hM
    rw [hA, hD, if_pos hM, if_pos hM]
    exact ⟨rfl, rfl⟩
  · intro hM hN
    rw [hA, if_neg hM, if_pos hN]
  · intro hM h0 hlt
    rw [hA, if_neg hM, if_neg (by omega), if_pos h0]
  · intro hM h0
    rw [hA, if_neg hM, if_neg (by omega), if_neg (by omega)]
  · intro hM hN
    rw [hD, if_neg hM, if_pos (by omega)]
  · intro hM h0 hlt
    rw [hD, if_neg hM, if_neg (by omega), if_pos h0]
  · intro hM h0
    rw [hD, if_neg hM, if_neg (by omega), if_neg (by omega)]
  · intro hM headers robotsTxt sitemapXml url ts f hf
    rw [mem_priority_fixes] at hf
    obtain ⟨sec, hsec, e, he, hbad, rfl⟩ := hf
    simp only [mkAllChecks, List.mem_cons, List.not_mem_nil, or_false] at hsec
    rcases hsec with rfl | rfl | rfl | rfl | rfl | rfl | rfl | rfl | rfl
    · exact not_img_id_technical store html headers url robotsTxt sitemapXml e he
    · refine ⟨fun hid => ?_, fun hid => ?_⟩
      · have hst := ((onPage_alt_dims store html) e he).1 hid
        simp only [badStatus] at hbad
        rw [hst, if_pos hM] at hbad
        simp at hbad
      · have hst := ((onPage_alt_dims store html) e he).2 hid
        simp only [badStatus] at hbad
        rw [hst, if_pos hM] at hbad
        simp at hbad
    · exact not_img_id_schema store html e he
    · exact not_img_id_og store html e he
    · exact not_img_id_performance store html headers e he
    · exact not_img_id_security store headers e he
    · exact not_img_id_ux store html e he
    · exact not_img_id_accessibility store html e he
    · exact not_img_id_legal store html e he

/-- Witness for C9 on a page with no images. -/
theorem claim_C9_witness :
    imgTotal "<p>no images here</p>".data = 0 ∧
    itemStatus (auditOnPageSeo emptyChecklist "<p>no images here</p>".data)
      "2_07_image_alt_tags" = some "not_applicable" ∧
    itemStatus (auditOnPageSeo emptyChecklist "<p>no images here</p>".data)
      "2_08_image_dimensions" = some "not_applicable" :=
  ⟨by decide,
   ((claim_C9_image_checks emptyChecklist "<p>no images here</p>".data).1 (by decide)).1,
   ((claim_C9_image_checks emptyChecklist "<p>no images here</p>".data).1 (by decide)).2⟩

/-! ## Claim C6: occurrence-counting infrastructure -/

/-- Model of `exactStrip` succeeds exactly on prefixes. -/
theorem exactStrip_isSome (p : List Char) : ∀ s, (exactStrip p s).isSome = p.isPrefixOf s := by
  induction p with
  | nil => intro s; cases s <;> simp [exactStrip, List.isPrefixOf]
  | cons a as ih =>
    intro s
    cases s with
    | nil => simp [exactStrip, List.isPrefixOf]
    | cons b bs =>
      simp only [exactStrip, List.isPrefixOf]
      by_cases h : a == b
      · rw [if_pos h, h, Bool.true_and, ih]
      · rw [if_neg h, Bool.eq_false_iff.mpr h, Bool.false_and]
        rfl

/-- No occurrence anywhere when the substring test fails. -/
theorem includesB_false_no_occ (p : List Char) : ∀ s, includesB p s = false →
    ∀ i, p.isPrefixOf (s.drop i) = false := by
  intro s
  induction s with
  | nil =>
    intro h i
    rw [List.drop_nil, ← exactStrip_isSome]
    simpa [includesB] using h
  | cons c rest ih =>
    intro h i
    have h' : (exactStrip p (c :: rest)).isSome = false ∧ includesB p rest = false := by
      simpa [includesB, Bool.or_eq_false_iff] using h
    cases i with
    | zero => rw [List.drop_zero, ← exactStrip_isSome]; exact h'.1
    | succ j => exact ih h'.2 j

/-- Occurrence-free strings have a zero occurrence count. -/
theorem occCount_eq_zero (p s : List Char) (h : ∀ i, p.isPrefixOf (s.drop i) = false) :
    occCount p s = 0 := by
  unfold occCount
  rw [List.countP_eq_zero]
  intro i _
  simp [h i]

/-- Occurrence-freeness restricts to prefixes. -/
theorem no_occ_take (p s : List Char) (n : Nat)
    (h : ∀ i, p.isPrefixOf (s.drop i) = false) :
    ∀ i, p.isPrefixOf ((s.take n).drop i) = false := by
  intro i
  rw [List.drop_take]
  cases hb : p.isPrefixOf ((s.drop i).take (n - i)) with
  | false => rfl
  | true =>
    exfalso
    have hpre := (List.isPrefixOf_iff_prefix.mp hb).trans (List.take_prefix _ _)
    have := List.isPrefixOf_iff_prefix.mpr hpre
    rw [h i] at this
    cases this

/-- Occurrence-freeness restricts to suffixes. -/
theorem no_occ_drop (p s : List Char) (m : Nat)
    (h : ∀ i, p.isPrefixOf (s.drop i) = false) :
    ∀ i, p.isPrefixOf ((s.drop m).drop i) = false := by
  intro i
  rw [List.drop_drop]
  exact h (m + i)

/-- Splitting an occurrence count over an append, given that no occurrence
spans the junction. -/
theorem occCount_append_split (p a b : List Char)
    (hspan : ∀ i, i < a.length → a.length < i + p.length →
      p.isPrefixOf ((a ++ b).drop i) = false) :
    occCount p (a ++ b) = occCount p a + occCount p b := by
  unfold occCount
  rw [List.length_append, List.range_add, List.countP_append, List.countP_map]
  congr 1
  · apply List.countP_congr
    intro i hi
    rw [List.mem_range] at hi
    by_cases hfit : i + p.length ≤ a.length
    · rw [List.drop_append_of_le_length (by omega)]
      constructor
      · intro happ
        have hpfx := List.isPrefixOf_iff_prefix.mp happ
        have htk := List.prefix_iff_eq_take.mp hpfx
        rw [List.take_append_of_le_length (by simp; omega)] at htk
        exact List.isPrefixOf_iff_prefix.mpr (List.prefix_iff_eq_take.mpr htk)
      · intro ha
        have hpfx := List.isPrefixOf_iff_prefix.mp ha
        exact List.isPrefixOf_iff_prefix.mpr (hpfx.trans (List.prefix_append _ _))
    · rw [hspan i hi (by omega)]
      constructor
      · intro hfalse
        cases hfalse
      · intro ha
        have := (List.isPrefixOf_iff_prefix.mp ha).length_le
        rw [List.length_drop] at this
        omega
  · apply List.countP_congr
    intro j hj
    have hd : (a ++ b).drop (a.length + j) = b.drop j := by
      rw [← List.drop_drop, List.drop_left]
    simp only [Function.comp]
    rw [hd]

/-- Append split when the right part starts with a character that occurs in
the pattern only at its head. -/
theorem occCount_append_of_head (p a b : List Char) (c : Char)
    (hb : b.head? = some c)
    (hc : ∀ k, k < p.length → 0 < k → p[k]? ≠ some c) :
    occCount p (a ++ b) = occCount p a + occCount p b := by
  apply occCount_append_split p a b
  intro i hi hsp
  cases hpre : p.isPrefixOf ((a ++ b).drop i) with
  | false => rfl
  | true =>
    exfalso
    have hpfx := List.isPrefixOf_iff_prefix.mp hpre
    have htk := List.prefix_iff_eq_take.mp hpfx
    apply hc (a.length - i) (by omega) (by omega)
    rw [htk, List.getElem?_take]
    rw [if_pos (by omega)]
    rw [List.getElem?_drop]
    rw [Nat.add_sub_cancel' (Nat.le_of_lt hi)]
    rw [List.getElem?_append_right (Nat.le_refl _), Nat.sub_self]
    rw [← List.head?_eq_getElem?]
    exact hb

/-- Append split when no proper nonempty suffix of the left part is a proper
prefix of the pattern (decidable for concrete left parts). -/
theorem occCount_append_of_suffix_free (p a b : List Char)
    (h : ∀ k, k < p.length → 0 < k → k ≤ a.length → a.drop (a.length - k) ≠ p.take k) :
    occCount p (a ++ b) = occCount p a + occCount p b := by
  apply occCount_append_split p a b
  intro i hi hsp
  cases hpre : p.isPrefixOf ((a ++ b).drop i) with
  | false => rfl
  | true =>
    exfalso
    have hpfx := List.isPrefixOf_iff_prefix.mp hpre
    have htk := List.prefix_iff_eq_take.mp hpfx
    apply h (a.length - i) (by omega) (by omega) (by omega)
    have hik : a.length - (a.length - i) = i := by omega
    rw [hik]
    rw [htk, List.take_take, Nat.min_eq_left (by omega)]
    rw [List.drop_append_of_le_length (by omega)]
    rw [List.take_append_of_le_length (by simp)]
    have hlen : (a.drop i).length = a.length - i := by simp
    rw [← hlen, List.take_length]

/-- If `p` prefixes `id` and `q` disagrees with the corresponding prefix of
`p`, then `q` does not prefix `id`. -/
theorem prefix_excl (id p q : List Char) (hlen : q.length ≤ p.length)
    (hne : q ≠ p.take q.length) (hp : p.isPrefixOf id = true) :
    q.isPrefixOf id = false := by
  cases hq : q.isPrefixOf id with
  | false => rfl
  | true =>
    exfalso
    apply hne
    have h1 := List.prefix_iff_eq_take.mp (List.isPrefixOf_iff_prefix.mp hp)
    have h2 := List.prefix_iff_eq_take.mp (List.isPrefixOf_iff_prefix.mp hq)
    have hA : p.take q.length = id.take q.length := by
      conv_lhs => rw [h1]
      rw [List.take_take, Nat.min_eq_left hlen]
    rw [hA, ← h2]

/-- For a title-family check-id, every other remediation route is inert. -/
theorem routes_after_title_id (env : FixEnv) (issue : FixIssue)
    (hpre : "2_01".data.isPrefixOf issue.check_id = true) :
    (∀ d, routeDesc env issue d = (d, [])) ∧
    (∀ d, routeCanonical env issue d = (d, [])) ∧
    (∀ d, routeMetaRobots env issue d = (d, [])) ∧
    (∀ d, routeViewport env issue d = (d, [])) ∧
    (∀ d, routeCharset env issue d = (d, [])) ∧
    (∀ d, routeOg env issue d = (d, [])) ∧
    (∀ d, routeLang env issue d = (d, [])) := by
  have h2 : "2_02".data.isPrefixOf issue.check_id = false :=
    prefix_excl _ _ _ (by decide) (by decide) hpre
  have h3 : "1_06".data.isPrefixOf issue.check_id = false :=
    prefix_excl _ _ _ (by decide) (by decide) hpre
  have h4 : "1_07".data.isPrefixOf issue.check_id = false :=
    prefix_excl _ _ _ (by decide) (by decide) hpre
  have h5 : "1_13".data.isPrefixOf issue.check_id = false :=
    prefix_excl _ _ _ (by decide) (by decide) hpre
  have h6 : "1_14".data.isPrefixOf issue.check_id = false :=
    prefix_excl _ _ _ (by decide) (by decide) hpre
  have h7 : "4_".data.isPrefixOf issue.check_id = false :=
    prefix_excl _ _ _ (by decide) (by decide) hpre
  have h8 : "1_15".data.isPrefixOf issue.check_id = false :=
    prefix_excl _ _ _ (by decide) (by decide) hpre
  refine ⟨?_, ?_, ?_, ?_, ?_, ?_, ?_⟩ <;> intro d
  · unfold routeDesc; rw [h2]; simp
  · unfold routeCanonical; rw [h3]; simp
  · unfold routeMetaRobots; rw [h4]; simp
  · unfold routeViewport; rw [h5]; simp
  · unfold routeCharset; rw [h6]; simp
  · unfold routeOg; rw [h7]; simp
  · unfold routeLang; rw [h8]; simp

/-- Claim C6 (amended): for a document that does not contain the literal
`<title>` marker, a title-family issue inserts exactly one `<title>` marker
(one occurrence in the resulting text) and logs exactly one change, provided
the `<head>` insertion anchor is present and the computed title text neither
contains the marker nor a dollar character (a dollar could expand under the
replacement substitution of `String.prototype.replace`, e.g. dollar-backquote
duplicating the marker, see `replace_substitution_doubles_title`); for a
document that already contains the literal `<title>` marker, the call
changes nothing and logs nothing. -/
theorem claim_C6_title_insertion (env : FixEnv) (issue : FixIssue) (content : List Char)
    (hpre : "2_01".data.isPrefixOf issue.check_id = true) :
    (includesB "<title>".data content = false →
      ∀ i, findCI "<head>".data content = some i →
      occCount "<title>".data (titleTextOf env issue) = 0 →
      '$' ∉ titleTextOf env issue →
      occCount "<title>".data (fixSeoIssuesPure env content [issue]).1 = 1 ∧
      (fixSeoIssuesPure env content [issue]).2.length = 1) ∧
    (includesB "<title>".data content = true →
      fixSeoIssuesPure env content [issue] = (content, [])) := by
  obtain ⟨r2, r3, r4, r5, r6, r7, r8⟩ := routes_after_title_id env issue hpre
  have happly : ∀ d, applyIssue env d issue = routeTitle env issue d := by
    intro d
    simp only [applyIssue, r2, r3, r4, r5, r6, r7, r8, List.append_nil, Prod.mk.eta]
  have hfix : fixSeoIssuesPure env content [issue] = routeTitle env issue content := by
    simp only [fixSeoIssuesPure, List.foldl_cons, List.foldl_nil, happly, List.nil_append,
      Prod.mk.eta]
  constructor
  · intro hno i hfind hT hdol
    rw [hfix]
    have hroute : routeTitle env issue content =
        (replaceFirstCI "<head>".data
           ("<head>\n    <title>".data ++ titleTextOf env issue ++ "</title>".data) content,
         ["Added title tag: \"" ++ String.mk (titleTextOf env issue) ++ "\""]) := by
      unfold routeTitle
      rw [hpre, hno]
      simp
    rw [hroute]
    refine ⟨?_, rfl⟩
    have hrep : replaceFirstCI "<head>".data
        ("<head>\n    <title>".data ++ titleTextOf env issue ++ "</title>".data) content
        = content.take i ++ ("<head>\n    <title>".data ++
            (titleTextOf env issue ++ ("</title>".data ++ content.drop (i + 6)))) := by
      unfold replaceFirstCI
      rw [hfind]
      show content.take i ++
          getSubstitution ((content.drop i).take 6) (content.take i) (content.drop (i + 6))
            (("<head>\n    <title>".data ++ titleTextOf env issue) ++ "</title>".data) ++
          content.drop (i + 6) = _
      rw [List.append_assoc "<head>\n    <title>".data (titleTextOf env issue) "</title>".data]
      rw [getSubstitution_dollar_free _ _ _ "<head>\n    <title>".data
        (titleTextOf env issue ++ "</title>".data) (by decide)]
      rw [getSubstitution_dollar_free _ _ _ (titleTextOf env issue) "</title>".data hdol]
      rw [getSubstitution_eq_self _ _ _ "</title>".data (by decide)]
      simp [List.append_assoc]
    rw [hrep]
    have hnocc := includesB_false_no_occ "<title>".data content hno
    rw [occCount_append_of_head "<title>".data (content.take i)
      ("<head>\n    <title>".data ++ (titleTextOf env issue ++
        ("</title>".data ++ content.drop (i + 6)))) '<' rfl (by decide)]
    rw [occCount_append_of_suffix_free "<title>".data "<head>\n    <title>".data
      (titleTextOf env issue ++ ("</title>".data ++ content.drop (i + 6))) (by decide)]
    rw [occCount_append_of_head "<title>".data (titleTextOf env issue)
      ("</title>".data ++ content.drop (i + 6)) '<' rfl (by decide)]
    rw [occCount_append_of_suffix_free "<title>".data "</title>".data
      (content.drop (i + 6)) (by decide)]
    have c1 : occCount "<title>".data (content.take i) = 0 :=
      occCount_eq_zero _ _ (no_occ_take _ _ _ hnocc)
    have c2 : occCount "<title>".data "<head>\n    <title>".data = 1 := by decide
    have c4 : occCount "<title>".data "</title>".data = 0 := by decide
    have c5 : occCount "<title>".data (content.drop (i + 6)) = 0 :=
      occCount_eq_zero _ _ (no_occ_drop _ _ _ hnocc)
    rw [c1, c2, hT, c4, c5]
  · intro hyes
    rw [hfix]
    unfold routeTitle
    rw [hyes]
    simp

/-- The replacement substitution is faithfully modelled: a dollar-backquote
pair in the instruction expands to the text preceding the match, so on this
page the title route inserts a second `<title>` marker. -/
theorem replace_substitution_doubles_title :
    occCount "<title>".data
      (fixSeoIssuesPure ⟨none, none⟩ "<title<head></head>".data
        [⟨"2_01_title_tag".data, '$' :: backquote :: ['>']⟩]).1 = 2 := by
  decide

/-- A page whose title tag is written in upper case. -/
def upperTitleDoc : List Char :=
  "<html><head><TITLE>My Upper Page</TITLE></head></html>".data

/-- Claim C6 (counterexample): the claim says that on a document already
containing a title tag the title-family remediation makes zero changes.
`upperTitleDoc` contains a title tag — the audit itself extracts it, since
the title regex is case-insensitive — yet the route probes for the
case-sensitive literal `<title>`, so it inserts a second title and logs a
change. -/
theorem claim_C6_counterexample :
    extractTitle upperTitleDoc = some "My Upper Page".data ∧
    (fixSeoIssuesPure ⟨none, none⟩ upperTitleDoc [titleIssue]).2
      = ["Added title tag: \"My Title\""] ∧
    (fixSeoIssuesPure ⟨none, none⟩ upperTitleDoc [titleIssue]).1 ≠ upperTitleDoc := by
  refine ⟨by decide, by decide, by decide⟩

/-- Witness for C6 on a concrete page with a `<head>` anchor and no title. -/
theorem claim_C6_witness :
    includesB "<title>".data "<html><head></head><body></body></html>".data = false ∧
    findCI "<head>".data "<html><head></head><body></body></html>".data = some 6 ∧
    occCount "<title>".data
      (fixSeoIssuesPure ⟨none, none⟩ "<html><head></head><body></body></html>".data
        [titleIssue]).1 = 1 ∧
    (fixSeoIssuesPure ⟨none, none⟩ "<html><head></head><body></body></html>".data
        [titleIssue]).2.length = 1 :=
  ⟨by decide, by decide,
   ((claim_C6_title_insertion ⟨none, none⟩ titleIssue
      "<html><head></head><body></body></html>".data (by decide)).1
      (by decide) 6 (by decide) (by decide) (by decide)).1,
   ((claim_C6_title_insertion ⟨none, none⟩ titleIssue
      "<html><head></head><body></body></html>".data (by decide)).1
      (by decide) 6 (by decide) (by decide) (by decide)).2⟩

end WebForge
